import Mathlib

/-!
Verification of the llmbench benchmark core (Go) against its specification.

This file is a shallow embedding of the benchmark orchestration and
aggregation engine:

* `internal/service/benchmark.go` — `NewBenchmarkService`,
  `runProviderBenchmark` (modelled as a small-step state machine, since the
  Go code runs one goroutine per request gated by a buffered-channel
  semaphore), and `GenerateSummary`.
* `internal/service/openai.go` — the streaming client
  `SendChatCompletionStream` (the revision that counts real output tokens of
  the assembled response; the repository also carries an older revision that
  used the raw chunk count, which the spec flags as superseded).
* `internal/config/config.go` — `Manager.validate`.

Modelling conventions:

* Go `time.Duration` values are nanosecond counts.  Every duration produced
  by the code is a difference of monotonic wall-clock readings and hence
  nonnegative, so durations are embedded as `Nat`.  Go's integer division on
  `time.Duration` therefore coincides with `Nat` division.
* Go `float64` arithmetic on throughput and error-rate values is embedded as
  exact rational (`ℚ`) arithmetic; the claims under verification are about
  which formula is computed and when, not about rounding of binary floats.
* `time.Time` zero values mark "never set"; they are embedded as `Option`.
* External collaborators (the tiktoken-backed token counter from
  `internal/utils`, Go's `time.ParseDuration`) are parameters of the
  embedded functions.
-/

/-- One chat endpoint, as consumed by `Manager.validate`
(`internal/config/config.go`).  That file reads the fields `Name`, `BaseURL`,
`APIKey` and `Model` of `models.Provider`; a sibling revision of the model
declares a plural `Models []string` field instead, which no claim touches. -/
structure Provider where
  name : String := ""
  baseURL : String := ""
  apiKey : String := ""
  model : String := ""
  deriving Repr, DecidableEq

/-- `models.BenchmarkConfig`: providers plus the numeric benchmark knobs.
Go `int` is embedded as `Int` so that the `<= 0` validation checks keep
their meaning. -/
structure BenchmarkConfig where
  providers : List Provider := []
  concurrency : Int := 0
  requests : Int := 0
  timeout : String := ""
  deriving Repr, DecidableEq

/-- `models.BenchmarkResult`: the outcome of one request.  Duration fields
are nanosecond counts, `tokenThroughput` is the embedded `float64`. -/
structure BenchmarkResult where
  provider : String := ""
  success : Bool := false
  responseTime : Nat := 0
  tokensUsed : Nat := 0
  error : String := ""
  response : String := ""
  isStreaming : Bool := false
  timeToFirstToken : Nat := 0
  tokenThroughput : ℚ := 0
  streamingTokens : Nat := 0
  streamingDuration : Nat := 0
  deriving Repr, DecidableEq

/-- `models.BenchmarkSummary`: the aggregate produced by `GenerateSummary`.
Fields keep their Go zero values when the code never assigns them. -/
structure BenchmarkSummary where
  provider : String := ""
  totalRequests : Nat := 0
  successfulReqs : Nat := 0
  failedRequests : Nat := 0
  avgResponseTime : Nat := 0
  minResponseTime : Nat := 0
  maxResponseTime : Nat := 0
  totalTokens : Nat := 0
  errorRate : ℚ := 0
  isStreaming : Bool := false
  avgTimeToFirstToken : Nat := 0
  minTimeToFirstToken : Nat := 0
  maxTimeToFirstToken : Nat := 0
  avgTokenThroughput : ℚ := 0
  minTokenThroughput : ℚ := 0
  maxTokenThroughput : ℚ := 0
  deriving Repr, DecidableEq

/-- `service.BenchmarkService` as built by `NewBenchmarkService`. -/
structure BenchmarkService where
  providers : List Provider
  config : BenchmarkConfig
  timeout : Nat
  deriving Repr, DecidableEq

/-- `NewBenchmarkService` (`internal/service/benchmark.go`): parses the
configured timeout string and fails only when that parse fails.
`time.ParseDuration` is Go standard library, passed in as `parseDuration`
(`none` embeds a parse error, `some d` a parsed duration of `d`
nanoseconds). -/
def NewBenchmarkService (parseDuration : String → Option Nat)
    (config : BenchmarkConfig) : Except String BenchmarkService :=
  match parseDuration config.timeout with
  | none => .error "invalid timeout duration"
  | some t => .ok { providers := config.providers, config := config, timeout := t }

/-- The provider loop of `Manager.validate` (`internal/config/config.go`
lines 89-102): returns the first field error, indexed like the Go loop. -/
def validateProviders : Nat → List Provider → Except String Unit
  | _, [] => .ok ()
  | i, p :: rest =>
    if p.name = "" then .error ("provider " ++ toString i ++ ": name is required")
    else if p.baseURL = "" then .error ("provider " ++ p.name ++ ": base_url is required")
    else if p.apiKey = "" then .error ("provider " ++ p.name ++ ": api_key is required")
    else if p.model = "" then .error ("provider " ++ p.name ++ ": model is required")
    else validateProviders (i + 1) rest

/-- `Manager.validate` (`internal/config/config.go` lines 84-118), applied to
the benchmark section of the loaded configuration. -/
def configValidate (parseDuration : String → Option Nat)
    (cfg : BenchmarkConfig) : Except String Unit :=
  if cfg.providers.length = 0 then .error "at least one provider must be configured"
  else
    match validateProviders 0 cfg.providers with
    | .error e => .error e
    | .ok () =>
      if cfg.concurrency ≤ 0 then .error "concurrency must be greater than 0"
      else if cfg.requests ≤ 0 then .error "requests must be greater than 0"
      else
        match parseDuration cfg.timeout with
        | none => .error "invalid timeout format"
        | some _ => .ok ()

/-- One server-sent chunk as seen by the streaming loop of
`SendChatCompletionStream`: whether `chunk.Choices` is nonempty, the delta
content of the first choice, and the wall-clock instant (ns) at which the
loop body handles it. -/
structure StreamChunk where
  hasChoice : Bool := true
  content : String := ""
  timeNs : Nat := 0
  deriving Repr, DecidableEq

/-- One observed streaming exchange: the instant the request started, the
chunks delivered in order, the instant the loop finished
(`streamEndTime := time.Now()`), and the value of `stream.Err()`. -/
structure StreamSession where
  startNs : Nat := 0
  chunks : List StreamChunk := []
  endNs : Nat := 0
  err : Option String := none
  deriving Repr, DecidableEq

/-- The local state of the chunk-processing loop in
`SendChatCompletionStream`: assembled content, chunk count, and the
first-token instant (`none` embeds the `time.Time` zero value, i.e.
`firstToken` still true). -/
structure StreamLoopState where
  responseContent : String := ""
  chunkCount : Nat := 0
  firstTokenTimeNs : Option Nat := none
  timeToFirstTokenNs : Nat := 0
  deriving Repr, DecidableEq

/-- The `for stream.Next()` loop of `SendChatCompletionStream`
(`src/unnamed/part_000` lines 205-218). -/
def processStream (startNs : Nat) : StreamLoopState → List StreamChunk → StreamLoopState
  | st, [] => st
  | st, c :: rest =>
    if c.hasChoice && c.content != "" then
      let st :=
        match st.firstTokenTimeNs with
        | none => { st with firstTokenTimeNs := some c.timeNs,
                            timeToFirstTokenNs := c.timeNs - startNs }
        | some _ => st
      processStream startNs
        { st with responseContent := st.responseContent ++ c.content,
                  chunkCount := st.chunkCount + 1 } rest
    else processStream startNs st rest

/-- `SendChatCompletionStream` (`src/unnamed/part_000` lines 157-270), the
revision the spec adopts: measurement and metric derivation for one
streaming request.  `countTokens` embeds `tokenCounter.CountTokens` (`none`
when the counter failed to initialise); `countInputTokens` embeds the value
of `tokenCounter.CountChatCompletionTokens(request.Messages, request.Model)`
for this request. -/
def SendChatCompletionStream (providerName : String)
    (countTokens : Option (String → Nat)) (countInputTokens : Nat)
    (sess : StreamSession) : BenchmarkResult :=
  let result : BenchmarkResult := { provider := providerName, isStreaming := true }
  let st := processStream sess.startNs {} sess.chunks
  let result := { result with timeToFirstToken := st.timeToFirstTokenNs }
  match sess.err with
  | some e =>
    { result with success := false, error := e, responseTime := sess.endNs - sess.startNs }
  | none =>
    let outputTokens : Nat :=
      match countTokens with
      | some f => if st.responseContent != "" then f st.responseContent else 0
      | none => 0
    let result :=
      { result with success := true, responseTime := sess.endNs - sess.startNs,
                    response := st.responseContent,
                    tokensUsed :=
                      match countTokens with
                      | some _ => countInputTokens + outputTokens
                      | none => 0,
                    streamingTokens := outputTokens }
    match st.firstTokenTimeNs with
    | none => result
    | some ft =>
      let streamingDuration := sess.endNs - ft
      let result := { result with streamingDuration := streamingDuration }
      if streamingDuration / 1000000 > 0 ∧ outputTokens > 0 then
        { result with
            tokenThroughput := (outputTokens : ℚ) / ((streamingDuration : ℚ) / 1000000000) }
      else result

/-- Specification-side view: the response text assembled from a chunk list,
i.e. the concatenation of the nonempty first-choice delta contents. -/
def assembledResponse : List StreamChunk → String
  | [] => ""
  | c :: rest =>
    (if c.hasChoice && c.content != "" then c.content else "") ++ assembledResponse rest

/-- Specification-side view: the arrival instant of the first nonempty
content fragment of a chunk list, if any. -/
def firstContentTimeNs (chunks : List StreamChunk) : Option Nat :=
  (chunks.find? (fun c => c.hasChoice && c.content != "")).map (·.timeNs)

/-- The mutable locals of the aggregation loop in `GenerateSummary`
(`src/unnamed/part_001` lines 133-144). -/
structure SummaryAcc where
  totalResponseTime : Nat := 0
  totalTokens : Nat := 0
  minTime : Nat := 0
  maxTime : Nat := 0
  successCount : Nat := 0
  isStreaming : Bool := false
  totalTTFT : Nat := 0
  minTTFT : Nat := 0
  maxTTFT : Nat := 0
  totalThroughput : ℚ := 0
  minThroughput : ℚ := 0
  maxThroughput : ℚ := 0
  streamingCount : Nat := 0
  deriving Repr, DecidableEq

/-- The time-to-first-token tracking block of the `GenerateSummary` loop
(`src/unnamed/part_001` lines 155-166), entered for a successful streaming
record: accumulate and count positive TTFT values and maintain the min/max
bounds, seeding them on the record that makes `streamingCount` equal 1. -/
def summaryTTFTBlock (acc : SummaryAcc) (r : BenchmarkResult) : SummaryAcc :=
  if r.timeToFirstToken > 0 then
    let acc : SummaryAcc :=
      { acc with totalTTFT := acc.totalTTFT + r.timeToFirstToken,
                 streamingCount := acc.streamingCount + 1 }
    let acc : SummaryAcc :=
      if acc.streamingCount = 1 ∨ r.timeToFirstToken < acc.minTTFT then
        { acc with minTTFT := r.timeToFirstToken }
      else acc
    if acc.streamingCount = 1 ∨ r.timeToFirstToken > acc.maxTTFT then
      { acc with maxTTFT := r.timeToFirstToken }
    else acc
  else acc

/-- The throughput tracking block of the `GenerateSummary` loop
(`src/unnamed/part_001` lines 168-178), entered for a successful streaming
record after the TTFT block: accumulate positive throughput values and
maintain the min/max bounds, whose seeding condition reads the
`streamingCount` left by the TTFT block. -/
def summaryThroughputBlock (acc : SummaryAcc) (r : BenchmarkResult) : SummaryAcc :=
  if r.tokenThroughput > 0 then
    let acc : SummaryAcc :=
      { acc with totalThroughput := acc.totalThroughput + r.tokenThroughput }
    let acc : SummaryAcc :=
      if acc.streamingCount = 1 ∨ r.tokenThroughput < acc.minThroughput then
        { acc with minThroughput := r.tokenThroughput }
      else acc
    if acc.streamingCount = 1 ∨ r.tokenThroughput > acc.maxThroughput then
      { acc with maxThroughput := r.tokenThroughput }
    else acc
  else acc

/-- The `if result.Success` block of the `GenerateSummary` loop
(`src/unnamed/part_001` lines 147-182): bump the success counter, accumulate
token totals (streaming-token field for streaming records, general usage
field otherwise), and run the streaming-metric blocks for streaming
records. -/
def summarySuccessBlock (acc : SummaryAcc) (r : BenchmarkResult) : SummaryAcc :=
  if r.success then
    let acc : SummaryAcc := { acc with successCount := acc.successCount + 1 }
    if r.isStreaming then
      let acc : SummaryAcc :=
        { acc with totalTokens := acc.totalTokens + r.streamingTokens, isStreaming := true }
      summaryThroughputBlock (summaryTTFTBlock acc r) r
    else { acc with totalTokens := acc.totalTokens + r.tokensUsed }
  else acc

/-- One iteration of the `for i, result := range providerResults` loop of
`GenerateSummary` (`src/unnamed/part_001` lines 146-192); `i` is the loop
index.  The blocks of the body are split out above; the tail accumulates
response time and maintains the min/max response-time bounds seeded by the
first record (`i == 0`). -/
def summaryStep (i : Nat) (acc : SummaryAcc) (r : BenchmarkResult) : SummaryAcc :=
  let acc : SummaryAcc := summarySuccessBlock acc r
  let acc : SummaryAcc := { acc with totalResponseTime := acc.totalResponseTime + r.responseTime }
  let acc : SummaryAcc :=
    if i = 0 ∨ r.responseTime < acc.minTime then { acc with minTime := r.responseTime }
    else acc
  if i = 0 ∨ r.responseTime > acc.maxTime then { acc with maxTime := r.responseTime }
  else acc

/-- The aggregation loop of `GenerateSummary`, threading the loop index. -/
def summaryLoop : Nat → SummaryAcc → List BenchmarkResult → SummaryAcc
  | _, acc, [] => acc
  | i, acc, r :: rest => summaryLoop (i + 1) (summaryStep i acc r) rest

/-- The per-provider body of `GenerateSummary` (`src/unnamed/part_001`
lines 127-221): runs the loop and assembles one `BenchmarkSummary`. -/
def GenerateSummaryFor (providerName : String)
    (providerResults : List BenchmarkResult) : BenchmarkSummary :=
  let acc := summaryLoop 0 {} providerResults
  let summary : BenchmarkSummary :=
    { provider := providerName, totalRequests := providerResults.length }
  let summary :=
    { summary with successfulReqs := acc.successCount,
                   failedRequests := summary.totalRequests - acc.successCount,
                   totalTokens := acc.totalTokens }
  let summary :=
    if summary.totalRequests > 0 then
      { summary with
          avgResponseTime := acc.totalResponseTime / summary.totalRequests,
          errorRate := (summary.failedRequests : ℚ) / (summary.totalRequests : ℚ) * 100 }
    else summary
  let summary := { summary with minResponseTime := acc.minTime, maxResponseTime := acc.maxTime }
  if acc.isStreaming then
    let summary := { summary with isStreaming := true }
    if acc.streamingCount > 0 then
      { summary with
          avgTimeToFirstToken := acc.totalTTFT / acc.streamingCount,
          minTimeToFirstToken := acc.minTTFT,
          maxTimeToFirstToken := acc.maxTTFT,
          avgTokenThroughput := acc.totalThroughput / (acc.streamingCount : ℚ),
          minTokenThroughput := acc.minThroughput,
          maxTokenThroughput := acc.maxThroughput }
    else summary
  else summary

/-- `GenerateSummary` over the merged result map, embedded as an association
list keyed by provider name. -/
def GenerateSummary (results : List (String × List BenchmarkResult)) :
    List (String × BenchmarkSummary) :=
  results.map (fun pr => (pr.1, GenerateSummaryFor pr.1 pr.2))

/-- The shared state of one `runProviderBenchmark` batch
(`src/unnamed/part_001` lines 81-121): request indices whose goroutine has
not yet acquired a semaphore slot, indices currently holding a slot
(in-flight requests), the `results` slice, and the sequence of
`completedCount` values handed to the progress callback (`len(results)`
after each append). -/
structure RunnerState where
  pending : List Nat
  inFlight : List Nat
  results : List BenchmarkResult
  progressLog : List Nat
  deriving Repr, DecidableEq

/-- Initial runner state for a batch of `requests` dispatched goroutines. -/
def initRunnerState (requests : Nat) : RunnerState :=
  { pending := List.range requests, inFlight := [], results := [], progressLog := [] }

/-- One scheduler step of a `runProviderBenchmark` batch with semaphore
capacity `concurrency`.  `client` embeds the Endpoint Client: the
`BenchmarkResult` that request number `i` eventually produces
(`SendChatCompletionStream` or `SendChatCompletion`, success or failure —
both return a result record, never abort the batch).

* `acquire`: a not-yet-started goroutine sends on the buffered `semaphore`
  channel; it can proceed only while fewer than `concurrency` slots are
  taken.
* `complete`: an in-flight goroutine finishes its call and, inside the
  `mu.Lock()` critical section, appends its result and reports
  `len(results)` to the progress callback, then releases its slot. -/
inductive RunnerStep (concurrency : Nat) (client : Nat → BenchmarkResult) :
    RunnerState → RunnerState → Prop where
  | acquire (i : Nat) (s : RunnerState) (hmem : i ∈ s.pending)
      (hcap : s.inFlight.length < concurrency) :
      RunnerStep concurrency client s
        { s with pending := s.pending.erase i, inFlight := i :: s.inFlight }
  | complete (i : Nat) (s : RunnerState) (hmem : i ∈ s.inFlight) :
      RunnerStep concurrency client s
        { s with inFlight := s.inFlight.erase i,
                 results := s.results ++ [client i],
                 progressLog := s.progressLog ++ [s.results.length + 1] }

/-- All states a `runProviderBenchmark` batch of `requests` requests with
semaphore capacity `concurrency` can reach, under any interleaving. -/
inductive RunnerReachable (concurrency : Nat) (client : Nat → BenchmarkResult)
    (requests : Nat) : RunnerState → Prop where
  | init : RunnerReachable concurrency client requests (initRunnerState requests)
  | step {s s' : RunnerState} : RunnerReachable concurrency client requests s →
      RunnerStep concurrency client s s' → RunnerReachable concurrency client requests s'

/-- A batch is finished exactly when every goroutine has completed:
`wg.Wait()` has returned, so nothing is pending or in flight. -/
def RunnerState.finished (s : RunnerState) : Prop := s.pending = [] ∧ s.inFlight = []

/-- Specification-side view: the number of records flagged successful. -/
def countSuccess (rs : List BenchmarkResult) : Nat :=
  (rs.filter (fun r => r.success)).length

/-- Specification-side view: the number of records flagged failed. -/
def countFailed (rs : List BenchmarkResult) : Nat :=
  (rs.filter (fun r => !r.success)).length

/-- Specification-side view: the response times of all records, successes
and failures alike. -/
def responseTimes (rs : List BenchmarkResult) : List Nat :=
  rs.map (fun r => r.responseTime)

/-- Specification-side view: the token contribution of one record — counted
only when successful, from the streaming-token field for streaming records
and from the general usage field otherwise. -/
def tokenContribution (r : BenchmarkResult) : Nat :=
  if r.success then (if r.isStreaming then r.streamingTokens else r.tokensUsed) else 0

/-- Specification-side view: the time-to-first-token values of successful
streaming records whose time-to-first-token is strictly positive. -/
def posTTFTs (rs : List BenchmarkResult) : List Nat :=
  (rs.filter (fun r => r.success && r.isStreaming && decide (0 < r.timeToFirstToken))).map
    (fun r => r.timeToFirstToken)

/-- Specification-side view: the throughput values of successful streaming
records whose throughput is strictly positive. -/
def posThroughputs (rs : List BenchmarkResult) : List ℚ :=
  (rs.filter (fun r => r.success && r.isStreaming && decide (0 < r.tokenThroughput))).map
    (fun r => r.tokenThroughput)


lemma ttftBlock_totalResponseTime (acc : SummaryAcc) (r : BenchmarkResult) :
    (summaryTTFTBlock acc r).totalResponseTime =
      acc.totalResponseTime := by
  by_cases ht : r.timeToFirstToken > 0 <;>
    simp only [summaryTTFTBlock, ht, if_true, if_false, ite_true, ite_false, true_and,
      false_and] <;>
    (try split_ifs) <;> (first | rfl | omega | simp)

lemma ttftBlock_totalTokens (acc : SummaryAcc) (r : BenchmarkResult) :
    (summaryTTFTBlock acc r).totalTokens =
      acc.totalTokens := by
  by_cases ht : r.timeToFirstToken > 0 <;>
    simp only [summaryTTFTBlock, ht, if_true, if_false, ite_true, ite_false, true_and,
      false_and] <;>
    (try split_ifs) <;> (first | rfl | omega | simp)

lemma ttftBlock_minTime (acc : SummaryAcc) (r : BenchmarkResult) :
    (summaryTTFTBlock acc r).minTime =
      acc.minTime := by
  by_cases ht : r.timeToFirstToken > 0 <;>
    simp only [summaryTTFTBlock, ht, if_true, if_false, ite_true, ite_false, true_and,
      false_and] <;>
    (try split_ifs) <;> (first | rfl | omega | simp)

lemma ttftBlock_maxTime (acc : SummaryAcc) (r : BenchmarkResult) :
    (summaryTTFTBlock acc r).maxTime =
      acc.maxTime := by
  by_cases ht : r.timeToFirstToken > 0 <;>
    simp only [summaryTTFTBlock, ht, if_true, if_false, ite_true, ite_false, true_and,
      false_and] <;>
    (try split_ifs) <;> (first | rfl | omega | simp)

lemma ttftBlock_successCount (acc : SummaryAcc) (r : BenchmarkResult) :
    (summaryTTFTBlock acc r).successCount =
      acc.successCount := by
  by_cases ht : r.timeToFirstToken > 0 <;>
    simp only [summaryTTFTBlock, ht, if_true, if_false, ite_true, ite_false, true_and,
      false_and] <;>
    (try split_ifs) <;> (first | rfl | omega | simp)

lemma ttftBlock_isStreaming (acc : SummaryAcc) (r : BenchmarkResult) :
    (summaryTTFTBlock acc r).isStreaming =
      acc.isStreaming := by
  by_cases ht : r.timeToFirstToken > 0 <;>
    simp only [summaryTTFTBlock, ht, if_true, if_false, ite_true, ite_false, true_and,
      false_and] <;>
    (try split_ifs) <;> (first | rfl | omega | simp)

lemma ttftBlock_totalTTFT (acc : SummaryAcc) (r : BenchmarkResult) :
    (summaryTTFTBlock acc r).totalTTFT =
      acc.totalTTFT + if r.timeToFirstToken > 0 then r.timeToFirstToken else 0 := by
  by_cases ht : r.timeToFirstToken > 0 <;>
    simp only [summaryTTFTBlock, ht, if_true, if_false, ite_true, ite_false, true_and,
      false_and] <;>
    (try split_ifs) <;> (first | rfl | omega | simp)

lemma ttftBlock_minTTFT (acc : SummaryAcc) (r : BenchmarkResult) :
    (summaryTTFTBlock acc r).minTTFT =
      if r.timeToFirstToken > 0 ∧ (acc.streamingCount + 1 = 1 ∨ r.timeToFirstToken < acc.minTTFT)
      then r.timeToFirstToken else acc.minTTFT := by
  by_cases ht : r.timeToFirstToken > 0 <;>
    simp only [summaryTTFTBlock, ht, if_true, if_false, ite_true, ite_false, true_and,
      false_and] <;>
    (try split_ifs) <;> (first | rfl | omega | simp)

lemma ttftBlock_maxTTFT (acc : SummaryAcc) (r : BenchmarkResult) :
    (summaryTTFTBlock acc r).maxTTFT =
      if r.timeToFirstToken > 0 ∧ (acc.streamingCount + 1 = 1 ∨ r.timeToFirstToken > acc.maxTTFT)
      then r.timeToFirstToken else acc.maxTTFT := by
  by_cases ht : r.timeToFirstToken > 0 <;>
    simp only [summaryTTFTBlock, ht, if_true, if_false, ite_true, ite_false, true_and,
      false_and] <;>
    (try split_ifs) <;> (first | rfl | omega | simp)

lemma ttftBlock_totalThroughput (acc : SummaryAcc) (r : BenchmarkResult) :
    (summaryTTFTBlock acc r).totalThroughput =
      acc.totalThroughput := by
  by_cases ht : r.timeToFirstToken > 0 <;>
    simp only [summaryTTFTBlock, ht, if_true, if_false, ite_true, ite_false, true_and,
      false_and] <;>
    (try split_ifs) <;> (first | rfl | omega | simp)

lemma ttftBlock_minThroughput (acc : SummaryAcc) (r : BenchmarkResult) :
    (summaryTTFTBlock acc r).minThroughput =
      acc.minThroughput := by
  by_cases ht : r.timeToFirstToken > 0 <;>
    simp only [summaryTTFTBlock, ht, if_true, if_false, ite_true, ite_false, true_and,
      false_and] <;>
    (try split_ifs) <;> (first | rfl | omega | simp)

lemma ttftBlock_maxThroughput (acc : SummaryAcc) (r : BenchmarkResult) :
    (summaryTTFTBlock acc r).maxThroughput =
      acc.maxThroughput := by
  by_cases ht : r.timeToFirstToken > 0 <;>
    simp only [summaryTTFTBlock, ht, if_true, if_false, ite_true, ite_false, true_and,
      false_and] <;>
    (try split_ifs) <;> (first | rfl | omega | simp)

lemma ttftBlock_streamingCount (acc : SummaryAcc) (r : BenchmarkResult) :
    (summaryTTFTBlock acc r).streamingCount =
      acc.streamingCount + if r.timeToFirstToken > 0 then 1 else 0 := by
  by_cases ht : r.timeToFirstToken > 0 <;>
    simp only [summaryTTFTBlock, ht, if_true, if_false, ite_true, ite_false, true_and,
      false_and] <;>
    (try split_ifs) <;> (first | rfl | omega | simp)

lemma thrBlock_totalResponseTime (acc : SummaryAcc) (r : BenchmarkResult) :
    (summaryThroughputBlock acc r).totalResponseTime =
      acc.totalResponseTime := by
  by_cases hq : r.tokenThroughput > 0 <;>
    simp only [summaryThroughputBlock, hq, if_true, if_false, ite_true, ite_false, true_and,
      false_and] <;>
    (try split_ifs) <;> (first | rfl | omega | simp)

lemma thrBlock_totalTokens (acc : SummaryAcc) (r : BenchmarkResult) :
    (summaryThroughputBlock acc r).totalTokens =
      acc.totalTokens := by
  by_cases hq : r.tokenThroughput > 0 <;>
    simp only [summaryThroughputBlock, hq, if_true, if_false, ite_true, ite_false, true_and,
      false_and] <;>
    (try split_ifs) <;> (first | rfl | omega | simp)

lemma thrBlock_minTime (acc : SummaryAcc) (r : BenchmarkResult) :
    (summaryThroughputBlock acc r).minTime =
      acc.minTime := by
  by_cases hq : r.tokenThroughput > 0 <;>
    simp only [summaryThroughputBlock, hq, if_true, if_false, ite_true, ite_false, true_and,
      false_and] <;>
    (try split_ifs) <;> (first | rfl | omega | simp)

lemma thrBlock_maxTime (acc : SummaryAcc) (r : BenchmarkResult) :
    (summaryThroughputBlock acc r).maxTime =
      acc.maxTime := by
  by_cases hq : r.tokenThroughput > 0 <;>
    simp only [summaryThroughputBlock, hq, if_true, if_false, ite_true, ite_false, true_and,
      false_and] <;>
    (try split_ifs) <;> (first | rfl | omega | simp)

lemma thrBlock_successCount (acc : SummaryAcc) (r : BenchmarkResult) :
    (summaryThroughputBlock acc r).successCount =
      acc.successCount := by
  by_cases hq : r.tokenThroughput > 0 <;>
    simp only [summaryThroughputBlock, hq, if_true, if_false, ite_true, ite_false, true_and,
      false_and] <;>
    (try split_ifs) <;> (first | rfl | omega | simp)

lemma thrBlock_isStreaming (acc : SummaryAcc) (r : BenchmarkResult) :
    (summaryThroughputBlock acc r).isStreaming =
      acc.isStreaming := by
  by_cases hq : r.tokenThroughput > 0 <;>
    simp only [summaryThroughputBlock, hq, if_true, if_false, ite_true, ite_false, true_and,
      false_and] <;>
    (try split_ifs) <;> (first | rfl | omega | simp)

lemma thrBlock_totalTTFT (acc : SummaryAcc) (r : BenchmarkResult) :
    (summaryThroughputBlock acc r).totalTTFT =
      acc.totalTTFT := by
  by_cases hq : r.tokenThroughput > 0 <;>
    simp only [summaryThroughputBlock, hq, if_true, if_false, ite_true, ite_false, true_and,
      false_and] <;>
    (try split_ifs) <;> (first | rfl | omega | simp)

lemma thrBlock_minTTFT (acc : SummaryAcc) (r : BenchmarkResult) :
    (summaryThroughputBlock acc r).minTTFT =
      acc.minTTFT := by
  by_cases hq : r.tokenThroughput > 0 <;>
    simp only [summaryThroughputBlock, hq, if_true, if_false, ite_true, ite_false, true_and,
      false_and] <;>
    (try split_ifs) <;> (first | rfl | omega | simp)

lemma thrBlock_maxTTFT (acc : SummaryAcc) (r : BenchmarkResult) :
    (summaryThroughputBlock acc r).maxTTFT =
      acc.maxTTFT := by
  by_cases hq : r.tokenThroughput > 0 <;>
    simp only [summaryThroughputBlock, hq, if_true, if_false, ite_true, ite_false, true_and,
      false_and] <;>
    (try split_ifs) <;> (first | rfl | omega | simp)

lemma thrBlock_totalThroughput (acc : SummaryAcc) (r : BenchmarkResult) :
    (summaryThroughputBlock acc r).totalThroughput =
      acc.totalThroughput + if r.tokenThroughput > 0 then r.tokenThroughput else 0 := by
  by_cases hq : r.tokenThroughput > 0 <;>
    simp only [summaryThroughputBlock, hq, if_true, if_false, ite_true, ite_false, true_and,
      false_and] <;>
    (try split_ifs) <;> (first | rfl | omega | simp)

lemma thrBlock_minThroughput (acc : SummaryAcc) (r : BenchmarkResult) :
    (summaryThroughputBlock acc r).minThroughput =
      if r.tokenThroughput > 0 ∧ (acc.streamingCount = 1 ∨ r.tokenThroughput < acc.minThroughput)
      then r.tokenThroughput else acc.minThroughput := by
  by_cases hq : r.tokenThroughput > 0 <;>
    simp only [summaryThroughputBlock, hq, if_true, if_false, ite_true, ite_false, true_and,
      false_and] <;>
    (try split_ifs) <;> (first | rfl | omega | simp)

lemma thrBlock_maxThroughput (acc : SummaryAcc) (r : BenchmarkResult) :
    (summaryThroughputBlock acc r).maxThroughput =
      if r.tokenThroughput > 0 ∧ (acc.streamingCount = 1 ∨ r.tokenThroughput > acc.maxThroughput)
      then r.tokenThroughput else acc.maxThroughput := by
  by_cases hq : r.tokenThroughput > 0 <;>
    simp only [summaryThroughputBlock, hq, if_true, if_false, ite_true, ite_false, true_and,
      false_and] <;>
    (try split_ifs) <;> (first | rfl | omega | simp)

lemma thrBlock_streamingCount (acc : SummaryAcc) (r : BenchmarkResult) :
    (summaryThroughputBlock acc r).streamingCount =
      acc.streamingCount := by
  by_cases hq : r.tokenThroughput > 0 <;>
    simp only [summaryThroughputBlock, hq, if_true, if_false, ite_true, ite_false, true_and,
      false_and] <;>
    (try split_ifs) <;> (first | rfl | omega | simp)

lemma successBlock_totalResponseTime (acc : SummaryAcc) (r : BenchmarkResult) :
    (summarySuccessBlock acc r).totalResponseTime =
      acc.totalResponseTime := by
  by_cases hs : r.success <;> by_cases hst : r.isStreaming <;>
    simp only [summarySuccessBlock, tokenContribution, hs, hst, if_true, if_false,
      ite_true, ite_false, true_and, false_and, and_true, and_false,
      ttftBlock_totalResponseTime, thrBlock_totalResponseTime,
      ttftBlock_totalTokens, thrBlock_totalTokens,
      ttftBlock_minTime, thrBlock_minTime,
      ttftBlock_maxTime, thrBlock_maxTime,
      ttftBlock_successCount, thrBlock_successCount,
      ttftBlock_isStreaming, thrBlock_isStreaming,
      ttftBlock_totalTTFT, thrBlock_totalTTFT,
      ttftBlock_minTTFT, thrBlock_minTTFT,
      ttftBlock_maxTTFT, thrBlock_maxTTFT,
      ttftBlock_totalThroughput, thrBlock_totalThroughput,
      ttftBlock_minThroughput, thrBlock_minThroughput,
      ttftBlock_maxThroughput, thrBlock_maxThroughput,
      ttftBlock_streamingCount, thrBlock_streamingCount] <;>
    (try split_ifs) <;> (first | rfl | omega | simp_all)

lemma successBlock_totalTokens (acc : SummaryAcc) (r : BenchmarkResult) :
    (summarySuccessBlock acc r).totalTokens =
      acc.totalTokens + tokenContribution r := by
  by_cases hs : r.success <;> by_cases hst : r.isStreaming <;>
    simp only [summarySuccessBlock, tokenContribution, hs, hst, if_true, if_false,
      ite_true, ite_false, true_and, false_and, and_true, and_false,
      ttftBlock_totalResponseTime, thrBlock_totalResponseTime,
      ttftBlock_totalTokens, thrBlock_totalTokens,
      ttftBlock_minTime, thrBlock_minTime,
      ttftBlock_maxTime, thrBlock_maxTime,
      ttftBlock_successCount, thrBlock_successCount,
      ttftBlock_isStreaming, thrBlock_isStreaming,
      ttftBlock_totalTTFT, thrBlock_totalTTFT,
      ttftBlock_minTTFT, thrBlock_minTTFT,
      ttftBlock_maxTTFT, thrBlock_maxTTFT,
      ttftBlock_totalThroughput, thrBlock_totalThroughput,
      ttftBlock_minThroughput, thrBlock_minThroughput,
      ttftBlock_maxThroughput, thrBlock_maxThroughput,
      ttftBlock_streamingCount, thrBlock_streamingCount] <;>
    (try split_ifs) <;> (first | rfl | omega | simp_all)

lemma successBlock_minTime (acc : SummaryAcc) (r : BenchmarkResult) :
    (summarySuccessBlock acc r).minTime =
      acc.minTime := by
  by_cases hs : r.success <;> by_cases hst : r.isStreaming <;>
    simp only [summarySuccessBlock, tokenContribution, hs, hst, if_true, if_false,
      ite_true, ite_false, true_and, false_and, and_true, and_false,
      ttftBlock_totalResponseTime, thrBlock_totalResponseTime,
      ttftBlock_totalTokens, thrBlock_totalTokens,
      ttftBlock_minTime, thrBlock_minTime,
      ttftBlock_maxTime, thrBlock_maxTime,
      ttftBlock_successCount, thrBlock_successCount,
      ttftBlock_isStreaming, thrBlock_isStreaming,
      ttftBlock_totalTTFT, thrBlock_totalTTFT,
      ttftBlock_minTTFT, thrBlock_minTTFT,
      ttftBlock_maxTTFT, thrBlock_maxTTFT,
      ttftBlock_totalThroughput, thrBlock_totalThroughput,
      ttftBlock_minThroughput, thrBlock_minThroughput,
      ttftBlock_maxThroughput, thrBlock_maxThroughput,
      ttftBlock_streamingCount, thrBlock_streamingCount] <;>
    (try split_ifs) <;> (first | rfl | omega | simp_all)

lemma successBlock_maxTime (acc : SummaryAcc) (r : BenchmarkResult) :
    (summarySuccessBlock acc r).maxTime =
      acc.maxTime := by
  by_cases hs : r.success <;> by_cases hst : r.isStreaming <;>
    simp only [summarySuccessBlock, tokenContribution, hs, hst, if_true, if_false,
      ite_true, ite_false, true_and, false_and, and_true, and_false,
      ttftBlock_totalResponseTime, thrBlock_totalResponseTime,
      ttftBlock_totalTokens, thrBlock_totalTokens,
      ttftBlock_minTime, thrBlock_minTime,
      ttftBlock_maxTime, thrBlock_maxTime,
      ttftBlock_successCount, thrBlock_successCount,
      ttftBlock_isStreaming, thrBlock_isStreaming,
      ttftBlock_totalTTFT, thrBlock_totalTTFT,
      ttftBlock_minTTFT, thrBlock_minTTFT,
      ttftBlock_maxTTFT, thrBlock_maxTTFT,
      ttftBlock_totalThroughput, thrBlock_totalThroughput,
      ttftBlock_minThroughput, thrBlock_minThroughput,
      ttftBlock_maxThroughput, thrBlock_maxThroughput,
      ttftBlock_streamingCount, thrBlock_streamingCount] <;>
    (try split_ifs) <;> (first | rfl | omega | simp_all)

lemma successBlock_successCount (acc : SummaryAcc) (r : BenchmarkResult) :
    (summarySuccessBlock acc r).successCount =
      acc.successCount + if r.success then 1 else 0 := by
  by_cases hs : r.success <;> by_cases hst : r.isStreaming <;>
    simp only [summarySuccessBlock, tokenContribution, hs, hst, if_true, if_false,
      ite_true, ite_false, true_and, false_and, and_true, and_false,
      ttftBlock_totalResponseTime, thrBlock_totalResponseTime,
      ttftBlock_totalTokens, thrBlock_totalTokens,
      ttftBlock_minTime, thrBlock_minTime,
      ttftBlock_maxTime, thrBlock_maxTime,
      ttftBlock_successCount, thrBlock_successCount,
      ttftBlock_isStreaming, thrBlock_isStreaming,
      ttftBlock_totalTTFT, thrBlock_totalTTFT,
      ttftBlock_minTTFT, thrBlock_minTTFT,
      ttftBlock_maxTTFT, thrBlock_maxTTFT,
      ttftBlock_totalThroughput, thrBlock_totalThroughput,
      ttftBlock_minThroughput, thrBlock_minThroughput,
      ttftBlock_maxThroughput, thrBlock_maxThroughput,
      ttftBlock_streamingCount, thrBlock_streamingCount] <;>
    (try split_ifs) <;> (first | rfl | omega | simp_all)

lemma successBlock_isStreaming (acc : SummaryAcc) (r : BenchmarkResult) :
    (summarySuccessBlock acc r).isStreaming =
      (acc.isStreaming || (r.success && r.isStreaming)) := by
  by_cases hs : r.success <;> by_cases hst : r.isStreaming <;>
    simp only [summarySuccessBlock, tokenContribution, hs, hst, if_true, if_false,
      ite_true, ite_false, true_and, false_and, and_true, and_false,
      ttftBlock_totalResponseTime, thrBlock_totalResponseTime,
      ttftBlock_totalTokens, thrBlock_totalTokens,
      ttftBlock_minTime, thrBlock_minTime,
      ttftBlock_maxTime, thrBlock_maxTime,
      ttftBlock_successCount, thrBlock_successCount,
      ttftBlock_isStreaming, thrBlock_isStreaming,
      ttftBlock_totalTTFT, thrBlock_totalTTFT,
      ttftBlock_minTTFT, thrBlock_minTTFT,
      ttftBlock_maxTTFT, thrBlock_maxTTFT,
      ttftBlock_totalThroughput, thrBlock_totalThroughput,
      ttftBlock_minThroughput, thrBlock_minThroughput,
      ttftBlock_maxThroughput, thrBlock_maxThroughput,
      ttftBlock_streamingCount, thrBlock_streamingCount] <;>
    (try split_ifs) <;> (first | rfl | omega | simp_all)

lemma successBlock_totalTTFT (acc : SummaryAcc) (r : BenchmarkResult) :
    (summarySuccessBlock acc r).totalTTFT =
      acc.totalTTFT +
      if r.success ∧ r.isStreaming ∧ r.timeToFirstToken > 0 then r.timeToFirstToken else 0 := by
  by_cases hs : r.success <;> by_cases hst : r.isStreaming <;>
    simp only [summarySuccessBlock, tokenContribution, hs, hst, if_true, if_false,
      ite_true, ite_false, true_and, false_and, and_true, and_false,
      ttftBlock_totalResponseTime, thrBlock_totalResponseTime,
      ttftBlock_totalTokens, thrBlock_totalTokens,
      ttftBlock_minTime, thrBlock_minTime,
      ttftBlock_maxTime, thrBlock_maxTime,
      ttftBlock_successCount, thrBlock_successCount,
      ttftBlock_isStreaming, thrBlock_isStreaming,
      ttftBlock_totalTTFT, thrBlock_totalTTFT,
      ttftBlock_minTTFT, thrBlock_minTTFT,
      ttftBlock_maxTTFT, thrBlock_maxTTFT,
      ttftBlock_totalThroughput, thrBlock_totalThroughput,
      ttftBlock_minThroughput, thrBlock_minThroughput,
      ttftBlock_maxThroughput, thrBlock_maxThroughput,
      ttftBlock_streamingCount, thrBlock_streamingCount] <;>
    (try split_ifs) <;> (first | rfl | omega | simp_all)

lemma successBlock_minTTFT (acc : SummaryAcc) (r : BenchmarkResult) :
    (summarySuccessBlock acc r).minTTFT =
      if r.success ∧ r.isStreaming ∧ r.timeToFirstToken > 0 ∧
          (acc.streamingCount + 1 = 1 ∨ r.timeToFirstToken < acc.minTTFT)
      then r.timeToFirstToken else acc.minTTFT := by
  by_cases hs : r.success <;> by_cases hst : r.isStreaming <;>
    simp only [summarySuccessBlock, tokenContribution, hs, hst, if_true, if_false,
      ite_true, ite_false, true_and, false_and, and_true, and_false,
      ttftBlock_totalResponseTime, thrBlock_totalResponseTime,
      ttftBlock_totalTokens, thrBlock_totalTokens,
      ttftBlock_minTime, thrBlock_minTime,
      ttftBlock_maxTime, thrBlock_maxTime,
      ttftBlock_successCount, thrBlock_successCount,
      ttftBlock_isStreaming, thrBlock_isStreaming,
      ttftBlock_totalTTFT, thrBlock_totalTTFT,
      ttftBlock_minTTFT, thrBlock_minTTFT,
      ttftBlock_maxTTFT, thrBlock_maxTTFT,
      ttftBlock_totalThroughput, thrBlock_totalThroughput,
      ttftBlock_minThroughput, thrBlock_minThroughput,
      ttftBlock_maxThroughput, thrBlock_maxThroughput,
      ttftBlock_streamingCount, thrBlock_streamingCount] <;>
    (try split_ifs) <;> (first | rfl | omega | simp_all)

lemma successBlock_maxTTFT (acc : SummaryAcc) (r : BenchmarkResult) :
    (summarySuccessBlock acc r).maxTTFT =
      if r.success ∧ r.isStreaming ∧ r.timeToFirstToken > 0 ∧
          (acc.streamingCount + 1 = 1 ∨ r.timeToFirstToken > acc.maxTTFT)
      then r.timeToFirstToken else acc.maxTTFT := by
  by_cases hs : r.success <;> by_cases hst : r.isStreaming <;>
    simp only [summarySuccessBlock, tokenContribution, hs, hst, if_true, if_false,
      ite_true, ite_false, true_and, false_and, and_true, and_false,
      ttftBlock_totalResponseTime, thrBlock_totalResponseTime,
      ttftBlock_totalTokens, thrBlock_totalTokens,
      ttftBlock_minTime, thrBlock_minTime,
      ttftBlock_maxTime, thrBlock_maxTime,
      ttftBlock_successCount, thrBlock_successCount,
      ttftBlock_isStreaming, thrBlock_isStreaming,
      ttftBlock_totalTTFT, thrBlock_totalTTFT,
      ttftBlock_minTTFT, thrBlock_minTTFT,
      ttftBlock_maxTTFT, thrBlock_maxTTFT,
      ttftBlock_totalThroughput, thrBlock_totalThroughput,
      ttftBlock_minThroughput, thrBlock_minThroughput,
      ttftBlock_maxThroughput, thrBlock_maxThroughput,
      ttftBlock_streamingCount, thrBlock_streamingCount] <;>
    (try split_ifs) <;> (first | rfl | omega | simp_all)

lemma successBlock_totalThroughput (acc : SummaryAcc) (r : BenchmarkResult) :
    (summarySuccessBlock acc r).totalThroughput =
      acc.totalThroughput +
      if r.success ∧ r.isStreaming ∧ r.tokenThroughput > 0 then r.tokenThroughput else 0 := by
  by_cases hs : r.success <;> by_cases hst : r.isStreaming <;>
    simp only [summarySuccessBlock, tokenContribution, hs, hst, if_true, if_false,
      ite_true, ite_false, true_and, false_and, and_true, and_false,
      ttftBlock_totalResponseTime, thrBlock_totalResponseTime,
      ttftBlock_totalTokens, thrBlock_totalTokens,
      ttftBlock_minTime, thrBlock_minTime,
      ttftBlock_maxTime, thrBlock_maxTime,
      ttftBlock_successCount, thrBlock_successCount,
      ttftBlock_isStreaming, thrBlock_isStreaming,
      ttftBlock_totalTTFT, thrBlock_totalTTFT,
      ttftBlock_minTTFT, thrBlock_minTTFT,
      ttftBlock_maxTTFT, thrBlock_maxTTFT,
      ttftBlock_totalThroughput, thrBlock_totalThroughput,
      ttftBlock_minThroughput, thrBlock_minThroughput,
      ttftBlock_maxThroughput, thrBlock_maxThroughput,
      ttftBlock_streamingCount, thrBlock_streamingCount] <;>
    (try split_ifs) <;> (first | rfl | omega | simp_all)

lemma successBlock_minThroughput (acc : SummaryAcc) (r : BenchmarkResult) :
    (summarySuccessBlock acc r).minThroughput =
      if r.success ∧ r.isStreaming ∧ r.tokenThroughput > 0 ∧
          (acc.streamingCount + (if r.timeToFirstToken > 0 then 1 else 0) = 1 ∨
            r.tokenThroughput < acc.minThroughput)
      then r.tokenThroughput else acc.minThroughput := by
  by_cases hs : r.success <;> by_cases hst : r.isStreaming <;>
    simp only [summarySuccessBlock, tokenContribution, hs, hst, if_true, if_false,
      ite_true, ite_false, true_and, false_and, and_true, and_false,
      ttftBlock_totalResponseTime, thrBlock_totalResponseTime,
      ttftBlock_totalTokens, thrBlock_totalTokens,
      ttftBlock_minTime, thrBlock_minTime,
      ttftBlock_maxTime, thrBlock_maxTime,
      ttftBlock_successCount, thrBlock_successCount,
      ttftBlock_isStreaming, thrBlock_isStreaming,
      ttftBlock_totalTTFT, thrBlock_totalTTFT,
      ttftBlock_minTTFT, thrBlock_minTTFT,
      ttftBlock_maxTTFT, thrBlock_maxTTFT,
      ttftBlock_totalThroughput, thrBlock_totalThroughput,
      ttftBlock_minThroughput, thrBlock_minThroughput,
      ttftBlock_maxThroughput, thrBlock_maxThroughput,
      ttftBlock_streamingCount, thrBlock_streamingCount] <;>
    (try split_ifs) <;> (first | rfl | omega | simp_all)

lemma successBlock_maxThroughput (acc : SummaryAcc) (r : BenchmarkResult) :
    (summarySuccessBlock acc r).maxThroughput =
      if r.success ∧ r.isStreaming ∧ r.tokenThroughput > 0 ∧
          (acc.streamingCount + (if r.timeToFirstToken > 0 then 1 else 0) = 1 ∨
            r.tokenThroughput > acc.maxThroughput)
      then r.tokenThroughput else acc.maxThroughput := by
  by_cases hs : r.success <;> by_cases hst : r.isStreaming <;>
    simp only [summarySuccessBlock, tokenContribution, hs, hst, if_true, if_false,
      ite_true, ite_false, true_and, false_and, and_true, and_false,
      ttftBlock_totalResponseTime, thrBlock_totalResponseTime,
      ttftBlock_totalTokens, thrBlock_totalTokens,
      ttftBlock_minTime, thrBlock_minTime,
      ttftBlock_maxTime, thrBlock_maxTime,
      ttftBlock_successCount, thrBlock_successCount,
      ttftBlock_isStreaming, thrBlock_isStreaming,
      ttftBlock_totalTTFT, thrBlock_totalTTFT,
      ttftBlock_minTTFT, thrBlock_minTTFT,
      ttftBlock_maxTTFT, thrBlock_maxTTFT,
      ttftBlock_totalThroughput, thrBlock_totalThroughput,
      ttftBlock_minThroughput, thrBlock_minThroughput,
      ttftBlock_maxThroughput, thrBlock_maxThroughput,
      ttftBlock_streamingCount, thrBlock_streamingCount] <;>
    (try split_ifs) <;> (first | rfl | omega | simp_all)

lemma successBlock_streamingCount (acc : SummaryAcc) (r : BenchmarkResult) :
    (summarySuccessBlock acc r).streamingCount =
      acc.streamingCount +
      if r.success ∧ r.isStreaming ∧ r.timeToFirstToken > 0 then 1 else 0 := by
  by_cases hs : r.success <;> by_cases hst : r.isStreaming <;>
    simp only [summarySuccessBlock, tokenContribution, hs, hst, if_true, if_false,
      ite_true, ite_false, true_and, false_and, and_true, and_false,
      ttftBlock_totalResponseTime, thrBlock_totalResponseTime,
      ttftBlock_totalTokens, thrBlock_totalTokens,
      ttftBlock_minTime, thrBlock_minTime,
      ttftBlock_maxTime, thrBlock_maxTime,
      ttftBlock_successCount, thrBlock_successCount,
      ttftBlock_isStreaming, thrBlock_isStreaming,
      ttftBlock_totalTTFT, thrBlock_totalTTFT,
      ttftBlock_minTTFT, thrBlock_minTTFT,
      ttftBlock_maxTTFT, thrBlock_maxTTFT,
      ttftBlock_totalThroughput, thrBlock_totalThroughput,
      ttftBlock_minThroughput, thrBlock_minThroughput,
      ttftBlock_maxThroughput, thrBlock_maxThroughput,
      ttftBlock_streamingCount, thrBlock_streamingCount] <;>
    (try split_ifs) <;> (first | rfl | omega | simp_all)

lemma summaryStep_totalResponseTime (i : Nat) (acc : SummaryAcc) (r : BenchmarkResult) :
    (summaryStep i acc r).totalResponseTime =
      acc.totalResponseTime + r.responseTime := by
  simp only [summaryStep, successBlock_totalResponseTime, successBlock_minTime,
      successBlock_maxTime] <;>
    (try split_ifs) <;> (first | rfl | omega | simp_all)

lemma summaryStep_totalTokens (i : Nat) (acc : SummaryAcc) (r : BenchmarkResult) :
    (summaryStep i acc r).totalTokens = (summarySuccessBlock acc r).totalTokens := by
  simp only [summaryStep] <;>
    (try split_ifs) <;> (first | rfl | omega | simp_all)

lemma summaryStep_minTime (i : Nat) (acc : SummaryAcc) (r : BenchmarkResult) :
    (summaryStep i acc r).minTime =
      if i = 0 ∨ r.responseTime < acc.minTime then r.responseTime else acc.minTime := by
  simp only [summaryStep, successBlock_totalResponseTime, successBlock_minTime,
      successBlock_maxTime] <;>
    (try split_ifs) <;> (first | rfl | omega | simp_all)

lemma summaryStep_maxTime (i : Nat) (acc : SummaryAcc) (r : BenchmarkResult) :
    (summaryStep i acc r).maxTime =
      if i = 0 ∨ r.responseTime > acc.maxTime then r.responseTime else acc.maxTime := by
  simp only [summaryStep, successBlock_totalResponseTime, successBlock_minTime,
      successBlock_maxTime] <;>
    (try split_ifs) <;> (first | rfl | omega | simp_all)

lemma summaryStep_successCount (i : Nat) (acc : SummaryAcc) (r : BenchmarkResult) :
    (summaryStep i acc r).successCount = (summarySuccessBlock acc r).successCount := by
  simp only [summaryStep] <;>
    (try split_ifs) <;> (first | rfl | omega | simp_all)

lemma summaryStep_isStreaming (i : Nat) (acc : SummaryAcc) (r : BenchmarkResult) :
    (summaryStep i acc r).isStreaming = (summarySuccessBlock acc r).isStreaming := by
  simp only [summaryStep] <;>
    (try split_ifs) <;> (first | rfl | omega | simp_all)

lemma summaryStep_totalTTFT (i : Nat) (acc : SummaryAcc) (r : BenchmarkResult) :
    (summaryStep i acc r).totalTTFT = (summarySuccessBlock acc r).totalTTFT := by
  simp only [summaryStep] <;>
    (try split_ifs) <;> (first | rfl | omega | simp_all)

lemma summaryStep_minTTFT (i : Nat) (acc : SummaryAcc) (r : BenchmarkResult) :
    (summaryStep i acc r).minTTFT = (summarySuccessBlock acc r).minTTFT := by
  simp only [summaryStep] <;>
    (try split_ifs) <;> (first | rfl | omega | simp_all)

lemma summaryStep_maxTTFT (i : Nat) (acc : SummaryAcc) (r : BenchmarkResult) :
    (summaryStep i acc r).maxTTFT = (summarySuccessBlock acc r).maxTTFT := by
  simp only [summaryStep] <;>
    (try split_ifs) <;> (first | rfl | omega | simp_all)

lemma summaryStep_totalThroughput (i : Nat) (acc : SummaryAcc) (r : BenchmarkResult) :
    (summaryStep i acc r).totalThroughput = (summarySuccessBlock acc r).totalThroughput := by
  simp only [summaryStep] <;>
    (try split_ifs) <;> (first | rfl | omega | simp_all)

lemma summaryStep_minThroughput (i : Nat) (acc : SummaryAcc) (r : BenchmarkResult) :
    (summaryStep i acc r).minThroughput = (summarySuccessBlock acc r).minThroughput := by
  simp only [summaryStep] <;>
    (try split_ifs) <;> (first | rfl | omega | simp_all)

lemma summaryStep_maxThroughput (i : Nat) (acc : SummaryAcc) (r : BenchmarkResult) :
    (summaryStep i acc r).maxThroughput = (summarySuccessBlock acc r).maxThroughput := by
  simp only [summaryStep] <;>
    (try split_ifs) <;> (first | rfl | omega | simp_all)

lemma summaryStep_streamingCount (i : Nat) (acc : SummaryAcc) (r : BenchmarkResult) :
    (summaryStep i acc r).streamingCount = (summarySuccessBlock acc r).streamingCount := by
  simp only [summaryStep] <;>
    (try split_ifs) <;> (first | rfl | omega | simp_all)

lemma ifLtEqMin {α : Type} [LinearOrder α] (a b : α) : (if a < b then a else b) = min b a := by
  rcases lt_or_ge a b with h | h
  · rw [if_pos h, min_eq_right h.le]
  · rw [if_neg (not_lt.mpr h), min_eq_left h]

lemma ifGtEqMax {α : Type} [LinearOrder α] (a b : α) : (if a > b then a else b) = max b a := by
  rcases lt_or_ge b a with h | h
  · rw [if_pos h, max_eq_right h.le]
  · rw [if_neg (not_lt.mpr h), max_eq_left h]

lemma foldl_min_mem {α : Type} [LinearOrder α] :
    ∀ (l : List α) (a : α), l.foldl min a = a ∨ l.foldl min a ∈ l := by
  intro l
  induction l with
  | nil => intro a; left; rfl
  | cons b l ih =>
    intro a
    rcases ih (min a b) with h | h
    · rcases min_choice a b with hm | hm
      · left; rw [List.foldl_cons, h, hm]
      · right; rw [List.foldl_cons, h, hm]; exact List.mem_cons_self b l
    · right; exact List.mem_cons_of_mem b h

lemma foldl_min_le {α : Type} [LinearOrder α] :
    ∀ (l : List α) (a x : α), (x = a ∨ x ∈ l) → l.foldl min a ≤ x := by
  intro l
  induction l with
  | nil =>
    intro a x hx
    rcases hx with rfl | hx
    · exact le_refl x
    · cases hx
  | cons b l ih =>
    intro a x hx
    rcases hx with rfl | hx
    · exact le_trans (ih (min x b) (min x b) (Or.inl rfl)) (min_le_left x b)
    · rcases List.mem_cons.mp hx with rfl | hx
      · exact le_trans (ih (min a x) (min a x) (Or.inl rfl)) (min_le_right a x)
      · exact ih (min a b) x (Or.inr hx)

lemma foldl_max_mem {α : Type} [LinearOrder α] :
    ∀ (l : List α) (a : α), l.foldl max a = a ∨ l.foldl max a ∈ l := by
  intro l
  induction l with
  | nil => intro a; left; rfl
  | cons b l ih =>
    intro a
    rcases ih (max a b) with h | h
    · rcases max_choice a b with hm | hm
      · left; rw [List.foldl_cons, h, hm]
      · right; rw [List.foldl_cons, h, hm]; exact List.mem_cons_self b l
    · right; exact List.mem_cons_of_mem b h

lemma foldl_max_ge {α : Type} [LinearOrder α] :
    ∀ (l : List α) (a x : α), (x = a ∨ x ∈ l) → x ≤ l.foldl max a := by
  intro l
  induction l with
  | nil =>
    intro a x hx
    rcases hx with rfl | hx
    · exact le_refl x
    · cases hx
  | cons b l ih =>
    intro a x hx
    rcases hx with rfl | hx
    · exact le_trans (le_max_left x b) (ih (max x b) (max x b) (Or.inl rfl))
    · rcases List.mem_cons.mp hx with rfl | hx
      · exact le_trans (le_max_right a x) (ih (max a x) (max a x) (Or.inl rfl))
      · exact ih (max a b) x (Or.inr hx)

lemma posTTFTs_cons (r : BenchmarkResult) (rest : List BenchmarkResult) :
    posTTFTs (r :: rest) =
      if r.success ∧ r.isStreaming ∧ r.timeToFirstToken > 0 then
        r.timeToFirstToken :: posTTFTs rest
      else posTTFTs rest := by
  by_cases hs : r.success <;> by_cases hst : r.isStreaming <;>
    by_cases ht : r.timeToFirstToken > 0 <;>
    simp [posTTFTs, List.filter_cons, hs, hst, ht]

lemma posThroughputs_cons (r : BenchmarkResult) (rest : List BenchmarkResult) :
    posThroughputs (r :: rest) =
      if r.success ∧ r.isStreaming ∧ r.tokenThroughput > 0 then
        r.tokenThroughput :: posThroughputs rest
      else posThroughputs rest := by
  by_cases hs : r.success <;> by_cases hst : r.isStreaming <;>
    by_cases hq : r.tokenThroughput > 0 <;>
    simp [posThroughputs, List.filter_cons, hs, hst, hq]

lemma countSuccess_cons (r : BenchmarkResult) (rest : List BenchmarkResult) :
    countSuccess (r :: rest) = (if r.success then 1 else 0) + countSuccess rest := by
  by_cases hs : r.success <;> simp [countSuccess, List.filter_cons, hs] <;> omega

lemma summaryLoop_successCount :
    ∀ (rs : List BenchmarkResult) (i : Nat) (acc : SummaryAcc),
      (summaryLoop i acc rs).successCount = acc.successCount + countSuccess rs := by
  intro rs
  induction rs with
  | nil => intro i acc; simp [summaryLoop, countSuccess]
  | cons r rest ih =>
    intro i acc
    rw [summaryLoop, ih, summaryStep_successCount, successBlock_successCount, countSuccess_cons]
    by_cases hs : r.success <;> simp [hs] <;> omega

lemma summaryLoop_totalTokens :
    ∀ (rs : List BenchmarkResult) (i : Nat) (acc : SummaryAcc),
      (summaryLoop i acc rs).totalTokens =
        acc.totalTokens + (rs.map tokenContribution).sum := by
  intro rs
  induction rs with
  | nil => intro i acc; simp [summaryLoop]
  | cons r rest ih =>
    intro i acc
    rw [summaryLoop, ih, summaryStep_totalTokens, successBlock_totalTokens]
    simp [List.sum_cons]
    omega

lemma summaryLoop_totalResponseTime :
    ∀ (rs : List BenchmarkResult) (i : Nat) (acc : SummaryAcc),
      (summaryLoop i acc rs).totalResponseTime =
        acc.totalResponseTime + (responseTimes rs).sum := by
  intro rs
  induction rs with
  | nil => intro i acc; simp [summaryLoop, responseTimes]
  | cons r rest ih =>
    intro i acc
    rw [summaryLoop, ih, summaryStep_totalResponseTime]
    simp [responseTimes]
    omega

lemma summaryLoop_isStreaming :
    ∀ (rs : List BenchmarkResult) (i : Nat) (acc : SummaryAcc),
      (summaryLoop i acc rs).isStreaming =
        (acc.isStreaming || rs.any (fun r => r.success && r.isStreaming)) := by
  intro rs
  induction rs with
  | nil => intro i acc; simp [summaryLoop]
  | cons r rest ih =>
    intro i acc
    rw [summaryLoop, ih, summaryStep_isStreaming, successBlock_isStreaming]
    simp [Bool.or_assoc]

lemma summaryLoop_streamingCount :
    ∀ (rs : List BenchmarkResult) (i : Nat) (acc : SummaryAcc),
      (summaryLoop i acc rs).streamingCount = acc.streamingCount + (posTTFTs rs).length := by
  intro rs
  induction rs with
  | nil => intro i acc; simp [summaryLoop, posTTFTs]
  | cons r rest ih =>
    intro i acc
    rw [summaryLoop, ih, summaryStep_streamingCount, successBlock_streamingCount,
      posTTFTs_cons]
    split_ifs <;> simp <;> omega

lemma summaryLoop_totalTTFT :
    ∀ (rs : List BenchmarkResult) (i : Nat) (acc : SummaryAcc),
      (summaryLoop i acc rs).totalTTFT = acc.totalTTFT + (posTTFTs rs).sum := by
  intro rs
  induction rs with
  | nil => intro i acc; simp [summaryLoop, posTTFTs]
  | cons r rest ih =>
    intro i acc
    rw [summaryLoop, ih, summaryStep_totalTTFT, successBlock_totalTTFT, posTTFTs_cons]
    split_ifs <;> simp <;> omega

lemma summaryLoop_totalThroughput :
    ∀ (rs : List BenchmarkResult) (i : Nat) (acc : SummaryAcc),
      (summaryLoop i acc rs).totalThroughput =
        acc.totalThroughput + (posThroughputs rs).sum := by
  intro rs
  induction rs with
  | nil => intro i acc; simp [summaryLoop, posThroughputs]
  | cons r rest ih =>
    intro i acc
    rw [summaryLoop, ih, summaryStep_totalThroughput, successBlock_totalThroughput,
      posThroughputs_cons]
    split_ifs <;> simp <;> ring

lemma summaryLoop_minTime_succ :
    ∀ (rs : List BenchmarkResult) (i : Nat) (acc : SummaryAcc),
      (summaryLoop (i + 1) acc rs).minTime = (responseTimes rs).foldl min acc.minTime := by
  intro rs
  induction rs with
  | nil => intro i acc; simp [summaryLoop, responseTimes]
  | cons r rest ih =>
    intro i acc
    rw [summaryLoop, ih, summaryStep_minTime]
    simp only [responseTimes, List.map_cons, List.foldl_cons]
    by_cases hlt : r.responseTime < acc.minTime
    · simp [hlt, min_eq_right hlt.le]
    · simp [hlt, Nat.add_one_ne_zero, min_eq_left (Nat.not_lt.mp hlt)]

lemma summaryLoop_maxTime_succ :
    ∀ (rs : List BenchmarkResult) (i : Nat) (acc : SummaryAcc),
      (summaryLoop (i + 1) acc rs).maxTime = (responseTimes rs).foldl max acc.maxTime := by
  intro rs
  induction rs with
  | nil => intro i acc; simp [summaryLoop, responseTimes]
  | cons r rest ih =>
    intro i acc
    rw [summaryLoop, ih, summaryStep_maxTime]
    simp only [responseTimes, List.map_cons, List.foldl_cons]
    by_cases hgt : r.responseTime > acc.maxTime
    · simp [hgt, max_eq_right hgt.le]
    · simp [hgt, Nat.add_one_ne_zero, max_eq_left (Nat.not_lt.mp hgt)]

lemma summaryLoop_minTime_zero (r : BenchmarkResult) (rest : List BenchmarkResult)
    (acc : SummaryAcc) :
    (summaryLoop 0 acc (r :: rest)).minTime =
      (responseTimes rest).foldl min r.responseTime := by
  rw [summaryLoop, summaryLoop_minTime_succ rest 0, summaryStep_minTime]
  simp

lemma summaryLoop_maxTime_zero (r : BenchmarkResult) (rest : List BenchmarkResult)
    (acc : SummaryAcc) :
    (summaryLoop 0 acc (r :: rest)).maxTime =
      (responseTimes rest).foldl max r.responseTime := by
  rw [summaryLoop, summaryLoop_maxTime_succ rest 0, summaryStep_maxTime]
  simp

lemma summaryLoop_minTTFT_pos :
    ∀ (rs : List BenchmarkResult) (i : Nat) (acc : SummaryAcc), 0 < acc.streamingCount →
      (summaryLoop i acc rs).minTTFT = (posTTFTs rs).foldl min acc.minTTFT := by
  intro rs
  induction rs with
  | nil => intro i acc _; simp [summaryLoop, posTTFTs]
  | cons r rest ih =>
    intro i acc hsc
    have hsc' : 0 < (summaryStep i acc r).streamingCount := by
      rw [summaryStep_streamingCount, successBlock_streamingCount]
      split_ifs <;> omega
    rw [summaryLoop, ih _ _ hsc', summaryStep_minTTFT, successBlock_minTTFT, posTTFTs_cons]
    by_cases hq : r.success ∧ r.isStreaming ∧ r.timeToFirstToken > 0
    · rw [if_pos hq, List.foldl_cons]
      by_cases hlt : r.timeToFirstToken < acc.minTTFT
      · rw [if_pos ⟨hq.1, hq.2.1, hq.2.2, Or.inr hlt⟩, min_eq_right hlt.le]
      · rw [if_neg ?_, min_eq_left (Nat.not_lt.mp hlt)]
        rintro ⟨-, -, -, h | h⟩
        · omega
        · exact hlt h
    · rw [if_neg hq, if_neg (fun hh => hq ⟨hh.1, hh.2.1, hh.2.2.1⟩)]

lemma summaryLoop_maxTTFT_pos :
    ∀ (rs : List BenchmarkResult) (i : Nat) (acc : SummaryAcc), 0 < acc.streamingCount →
      (summaryLoop i acc rs).maxTTFT = (posTTFTs rs).foldl max acc.maxTTFT := by
  intro rs
  induction rs with
  | nil => intro i acc _; simp [summaryLoop, posTTFTs]
  | cons r rest ih =>
    intro i acc hsc
    have hsc' : 0 < (summaryStep i acc r).streamingCount := by
      rw [summaryStep_streamingCount, successBlock_streamingCount]
      split_ifs <;> omega
    rw [summaryLoop, ih _ _ hsc', summaryStep_maxTTFT, successBlock_maxTTFT, posTTFTs_cons]
    by_cases hq : r.success ∧ r.isStreaming ∧ r.timeToFirstToken > 0
    · rw [if_pos hq, List.foldl_cons]
      by_cases hgt : r.timeToFirstToken > acc.maxTTFT
      · rw [if_pos ⟨hq.1, hq.2.1, hq.2.2, Or.inr hgt⟩, max_eq_right hgt.le]
      · rw [if_neg ?_, max_eq_left (Nat.not_lt.mp hgt)]
        rintro ⟨-, -, -, h | h⟩
        · omega
        · exact hgt h
    · rw [if_neg hq, if_neg (fun hh => hq ⟨hh.1, hh.2.1, hh.2.2.1⟩)]

lemma summaryLoop_minTTFT_seed :
    ∀ (rs : List BenchmarkResult) (i : Nat) (acc : SummaryAcc), acc.streamingCount = 0 →
      (summaryLoop i acc rs).minTTFT =
        (match posTTFTs rs with
         | [] => acc.minTTFT
         | t :: ts => ts.foldl min t) := by
  intro rs
  induction rs with
  | nil => intro i acc _; simp [summaryLoop, posTTFTs]
  | cons r rest ih =>
    intro i acc hsc
    by_cases hq : r.success ∧ r.isStreaming ∧ r.timeToFirstToken > 0
    · have h1 : (summaryStep i acc r).minTTFT = r.timeToFirstToken := by
        rw [summaryStep_minTTFT, successBlock_minTTFT,
          if_pos ⟨hq.1, hq.2.1, hq.2.2, Or.inl (by omega)⟩]
      have h2 : 0 < (summaryStep i acc r).streamingCount := by
        rw [summaryStep_streamingCount, successBlock_streamingCount, if_pos hq]
        omega
      rw [summaryLoop, summaryLoop_minTTFT_pos rest _ _ h2, h1, posTTFTs_cons, if_pos hq]
    · have h1 : (summaryStep i acc r).minTTFT = acc.minTTFT := by
        rw [summaryStep_minTTFT, successBlock_minTTFT,
          if_neg (fun hh => hq ⟨hh.1, hh.2.1, hh.2.2.1⟩)]
      have h2 : (summaryStep i acc r).streamingCount = 0 := by
        rw [summaryStep_streamingCount, successBlock_streamingCount, if_neg hq]
        omega
      rw [summaryLoop, ih _ _ h2, h1, posTTFTs_cons, if_neg hq]

lemma summaryLoop_maxTTFT_seed :
    ∀ (rs : List BenchmarkResult) (i : Nat) (acc : SummaryAcc), acc.streamingCount = 0 →
      (summaryLoop i acc rs).maxTTFT =
        (match posTTFTs rs with
         | [] => acc.maxTTFT
         | t :: ts => ts.foldl max t) := by
  intro rs
  induction rs with
  | nil => intro i acc _; simp [summaryLoop, posTTFTs]
  | cons r rest ih =>
    intro i acc hsc
    by_cases hq : r.success ∧ r.isStreaming ∧ r.timeToFirstToken > 0
    · have h1 : (summaryStep i acc r).maxTTFT = r.timeToFirstToken := by
        rw [summaryStep_maxTTFT, successBlock_maxTTFT,
          if_pos ⟨hq.1, hq.2.1, hq.2.2, Or.inl (by omega)⟩]
      have h2 : 0 < (summaryStep i acc r).streamingCount := by
        rw [summaryStep_streamingCount, successBlock_streamingCount, if_pos hq]
        omega
      rw [summaryLoop, summaryLoop_maxTTFT_pos rest _ _ h2, h1, posTTFTs_cons, if_pos hq]
    · have h1 : (summaryStep i acc r).maxTTFT = acc.maxTTFT := by
        rw [summaryStep_maxTTFT, successBlock_maxTTFT,
          if_neg (fun hh => hq ⟨hh.1, hh.2.1, hh.2.2.1⟩)]
      have h2 : (summaryStep i acc r).streamingCount = 0 := by
        rw [summaryStep_streamingCount, successBlock_streamingCount, if_neg hq]
        omega
      rw [summaryLoop, ih _ _ h2, h1, posTTFTs_cons, if_neg hq]

lemma summaryLoop_minThroughput_pos :
    ∀ (rs : List BenchmarkResult) (i : Nat) (acc : SummaryAcc), 0 < acc.streamingCount →
      (∀ r ∈ rs, r.success = true → r.isStreaming = true →
        (0 < r.timeToFirstToken ↔ 0 < r.tokenThroughput)) →
      (summaryLoop i acc rs).minThroughput =
        (posThroughputs rs).foldl min acc.minThroughput := by
  intro rs
  induction rs with
  | nil => intro i acc _ _; simp [summaryLoop, posThroughputs]
  | cons r rest ih =>
    intro i acc hsc halign
    have hsc' : 0 < (summaryStep i acc r).streamingCount := by
      rw [summaryStep_streamingCount, successBlock_streamingCount]
      split_ifs <;> omega
    have halign' : ∀ x ∈ rest, x.success = true → x.isStreaming = true →
        (0 < x.timeToFirstToken ↔ 0 < x.tokenThroughput) :=
      fun x hx => halign x (List.mem_cons_of_mem r hx)
    rw [summaryLoop, ih _ _ hsc' halign', summaryStep_minThroughput,
      successBlock_minThroughput, posThroughputs_cons]
    by_cases hq : r.success ∧ r.isStreaming ∧ r.tokenThroughput > 0
    · have httft : 0 < r.timeToFirstToken :=
        (halign r (List.mem_cons_self r rest) hq.1 hq.2.1).mpr hq.2.2
      rw [if_pos hq, List.foldl_cons]
      by_cases hlt : r.tokenThroughput < acc.minThroughput
      · rw [if_pos ⟨hq.1, hq.2.1, hq.2.2, Or.inr hlt⟩, min_eq_right hlt.le]
      · rw [if_neg ?_, min_eq_left (not_lt.mp hlt)]
        rintro ⟨-, -, -, h | h⟩
        · rw [if_pos httft] at h
          omega
        · exact hlt h
    · rw [if_neg hq, if_neg (fun hh => hq ⟨hh.1, hh.2.1, hh.2.2.1⟩)]

lemma summaryLoop_maxThroughput_pos :
    ∀ (rs : List BenchmarkResult) (i : Nat) (acc : SummaryAcc), 0 < acc.streamingCount →
      (∀ r ∈ rs, r.success = true → r.isStreaming = true →
        (0 < r.timeToFirstToken ↔ 0 < r.tokenThroughput)) →
      (summaryLoop i acc rs).maxThroughput =
        (posThroughputs rs).foldl max acc.maxThroughput := by
  intro rs
  induction rs with
  | nil => intro i acc _ _; simp [summaryLoop, posThroughputs]
  | cons r rest ih =>
    intro i acc hsc halign
    have hsc' : 0 < (summaryStep i acc r).streamingCount := by
      rw [summaryStep_streamingCount, successBlock_streamingCount]
      split_ifs <;> omega
    have halign' : ∀ x ∈ rest, x.success = true → x.isStreaming = true →
        (0 < x.timeToFirstToken ↔ 0 < x.tokenThroughput) :=
      fun x hx => halign x (List.mem_cons_of_mem r hx)
    rw [summaryLoop, ih _ _ hsc' halign', summaryStep_maxThroughput,
      successBlock_maxThroughput, posThroughputs_cons]
    by_cases hq : r.success ∧ r.isStreaming ∧ r.tokenThroughput > 0
    · have httft : 0 < r.timeToFirstToken :=
        (halign r (List.mem_cons_self r rest) hq.1 hq.2.1).mpr hq.2.2
      rw [if_pos hq, List.foldl_cons]
      by_cases hgt : r.tokenThroughput > acc.maxThroughput
      · rw [if_pos ⟨hq.1, hq.2.1, hq.2.2, Or.inr hgt⟩, max_eq_right hgt.le]
      · rw [if_neg ?_, max_eq_left (not_lt.mp hgt)]
        rintro ⟨-, -, -, h | h⟩
        · rw [if_pos httft] at h
          omega
        · exact hgt h
    · rw [if_neg hq, if_neg (fun hh => hq ⟨hh.1, hh.2.1, hh.2.2.1⟩)]

lemma summaryLoop_minThroughput_seed :
    ∀ (rs : List BenchmarkResult) (i : Nat) (acc : SummaryAcc), acc.streamingCount = 0 →
      (∀ r ∈ rs, r.success = true → r.isStreaming = true →
        (0 < r.timeToFirstToken ↔ 0 < r.tokenThroughput)) →
      (summaryLoop i acc rs).minThroughput =
        (match posThroughputs rs with
         | [] => acc.minThroughput
         | t :: ts => ts.foldl min t) := by
  intro rs
  induction rs with
  | nil => intro i acc _ _; simp [summaryLoop, posThroughputs]
  | cons r rest ih =>
    intro i acc hsc halign
    have halign' : ∀ x ∈ rest, x.success = true → x.isStreaming = true →
        (0 < x.timeToFirstToken ↔ 0 < x.tokenThroughput) :=
      fun x hx => halign x (List.mem_cons_of_mem r hx)
    by_cases hq : r.success ∧ r.isStreaming ∧ r.tokenThroughput > 0
    · have httft : 0 < r.timeToFirstToken :=
        (halign r (List.mem_cons_self r rest) hq.1 hq.2.1).mpr hq.2.2
      have hcond : acc.streamingCount + (if r.timeToFirstToken > 0 then 1 else 0) = 1 := by
        rw [if_pos httft]
        omega
      have h1 : (summaryStep i acc r).minThroughput = r.tokenThroughput := by
        rw [summaryStep_minThroughput, successBlock_minThroughput,
          if_pos ⟨hq.1, hq.2.1, hq.2.2, Or.inl hcond⟩]
      have h2 : 0 < (summaryStep i acc r).streamingCount := by
        rw [summaryStep_streamingCount, successBlock_streamingCount,
          if_pos ⟨hq.1, hq.2.1, httft⟩]
        omega
      rw [summaryLoop, summaryLoop_minThroughput_pos rest _ _ h2 halign', h1,
        posThroughputs_cons, if_pos hq]
    · have hnot : ¬(r.success ∧ r.isStreaming ∧ r.timeToFirstToken > 0) := by
        rintro ⟨h1, h2, h3⟩
        exact hq ⟨h1, h2, (halign r (List.mem_cons_self r rest) h1 h2).mp h3⟩
      have h1 : (summaryStep i acc r).minThroughput = acc.minThroughput := by
        rw [summaryStep_minThroughput, successBlock_minThroughput,
          if_neg (fun hh => hq ⟨hh.1, hh.2.1, hh.2.2.1⟩)]
      have h2 : (summaryStep i acc r).streamingCount = 0 := by
        rw [summaryStep_streamingCount, successBlock_streamingCount, if_neg hnot]
        omega
      rw [summaryLoop, ih _ _ h2 halign', h1, posThroughputs_cons, if_neg hq]

lemma summaryLoop_maxThroughput_seed :
    ∀ (rs : List BenchmarkResult) (i : Nat) (acc : SummaryAcc), acc.streamingCount = 0 →
      (∀ r ∈ rs, r.success = true → r.isStreaming = true →
        (0 < r.timeToFirstToken ↔ 0 < r.tokenThroughput)) →
      (summaryLoop i acc rs).maxThroughput =
        (match posThroughputs rs with
         | [] => acc.maxThroughput
         | t :: ts => ts.foldl max t) := by
  intro rs
  induction rs with
  | nil => intro i acc _ _; simp [summaryLoop, posThroughputs]
  | cons r rest ih =>
    intro i acc hsc halign
    have halign' : ∀ x ∈ rest, x.success = true → x.isStreaming = true →
        (0 < x.timeToFirstToken ↔ 0 < x.tokenThroughput) :=
      fun x hx => halign x (List.mem_cons_of_mem r hx)
    by_cases hq : r.success ∧ r.isStreaming ∧ r.tokenThroughput > 0
    · have httft : 0 < r.timeToFirstToken :=
        (halign r (List.mem_cons_self r rest) hq.1 hq.2.1).mpr hq.2.2
      have hcond : acc.streamingCount + (if r.timeToFirstToken > 0 then 1 else 0) = 1 := by
        rw [if_pos httft]
        omega
      have h1 : (summaryStep i acc r).maxThroughput = r.tokenThroughput := by
        rw [summaryStep_maxThroughput, successBlock_maxThroughput,
          if_pos ⟨hq.1, hq.2.1, hq.2.2, Or.inl hcond⟩]
      have h2 : 0 < (summaryStep i acc r).streamingCount := by
        rw [summaryStep_streamingCount, successBlock_streamingCount,
          if_pos ⟨hq.1, hq.2.1, httft⟩]
        omega
      rw [summaryLoop, summaryLoop_maxThroughput_pos rest _ _ h2 halign', h1,
        posThroughputs_cons, if_pos hq]
    · have hnot : ¬(r.success ∧ r.isStreaming ∧ r.timeToFirstToken > 0) := by
        rintro ⟨h1, h2, h3⟩
        exact hq ⟨h1, h2, (halign r (List.mem_cons_self r rest) h1 h2).mp h3⟩
      have h1 : (summaryStep i acc r).maxThroughput = acc.maxThroughput := by
        rw [summaryStep_maxThroughput, successBlock_maxThroughput,
          if_neg (fun hh => hq ⟨hh.1, hh.2.1, hh.2.2.1⟩)]
      have h2 : (summaryStep i acc r).streamingCount = 0 := by
        rw [summaryStep_streamingCount, successBlock_streamingCount, if_neg hnot]
        omega
      rw [summaryLoop, ih _ _ h2 halign', h1, posThroughputs_cons, if_neg hq]

lemma gsf_totalRequests (p : String) (rs : List BenchmarkResult) :
    (GenerateSummaryFor p rs).totalRequests = rs.length := by
  simp only [GenerateSummaryFor]
  split_ifs <;> rfl

lemma gsf_successfulReqs (p : String) (rs : List BenchmarkResult) :
    (GenerateSummaryFor p rs).successfulReqs = (summaryLoop 0 {} rs).successCount := by
  simp only [GenerateSummaryFor]
  split_ifs <;> rfl

lemma gsf_failedRequests (p : String) (rs : List BenchmarkResult) :
    (GenerateSummaryFor p rs).failedRequests =
      rs.length - (summaryLoop 0 {} rs).successCount := by
  simp only [GenerateSummaryFor]
  split_ifs <;> rfl

lemma gsf_totalTokens (p : String) (rs : List BenchmarkResult) :
    (GenerateSummaryFor p rs).totalTokens = (summaryLoop 0 {} rs).totalTokens := by
  simp only [GenerateSummaryFor]
  split_ifs <;> rfl

lemma gsf_minResponseTime (p : String) (rs : List BenchmarkResult) :
    (GenerateSummaryFor p rs).minResponseTime = (summaryLoop 0 {} rs).minTime := by
  simp only [GenerateSummaryFor]
  split_ifs <;> rfl

lemma gsf_maxResponseTime (p : String) (rs : List BenchmarkResult) :
    (GenerateSummaryFor p rs).maxResponseTime = (summaryLoop 0 {} rs).maxTime := by
  simp only [GenerateSummaryFor]
  split_ifs <;> rfl

lemma gsf_isStreaming (p : String) (rs : List BenchmarkResult) :
    (GenerateSummaryFor p rs).isStreaming = (summaryLoop 0 {} rs).isStreaming := by
  simp only [GenerateSummaryFor]
  split_ifs with h1 h2 <;> simp_all

lemma gsf_avgResponseTime (p : String) (rs : List BenchmarkResult) :
    (GenerateSummaryFor p rs).avgResponseTime =
      if rs.length > 0 then (summaryLoop 0 {} rs).totalResponseTime / rs.length else 0 := by
  simp only [GenerateSummaryFor]
  split_ifs <;> rfl

lemma gsf_errorRate (p : String) (rs : List BenchmarkResult) :
    (GenerateSummaryFor p rs).errorRate =
      if rs.length > 0 then
        ((rs.length - (summaryLoop 0 {} rs).successCount : Nat) : ℚ) / (rs.length : ℚ) * 100
      else 0 := by
  simp only [GenerateSummaryFor]
  split_ifs <;> rfl

lemma gsf_avgTTFT (p : String) (rs : List BenchmarkResult) :
    (GenerateSummaryFor p rs).avgTimeToFirstToken =
      if (summaryLoop 0 {} rs).isStreaming ∧ (summaryLoop 0 {} rs).streamingCount > 0 then
        (summaryLoop 0 {} rs).totalTTFT / (summaryLoop 0 {} rs).streamingCount
      else 0 := by
  simp only [GenerateSummaryFor]
  split_ifs <;> simp_all

lemma gsf_minTTFT (p : String) (rs : List BenchmarkResult) :
    (GenerateSummaryFor p rs).minTimeToFirstToken =
      if (summaryLoop 0 {} rs).isStreaming ∧ (summaryLoop 0 {} rs).streamingCount > 0 then
        (summaryLoop 0 {} rs).minTTFT
      else 0 := by
  simp only [GenerateSummaryFor]
  split_ifs <;> simp_all

lemma gsf_maxTTFT (p : String) (rs : List BenchmarkResult) :
    (GenerateSummaryFor p rs).maxTimeToFirstToken =
      if (summaryLoop 0 {} rs).isStreaming ∧ (summaryLoop 0 {} rs).streamingCount > 0 then
        (summaryLoop 0 {} rs).maxTTFT
      else 0 := by
  simp only [GenerateSummaryFor]
  split_ifs <;> simp_all

lemma gsf_avgThroughput (p : String) (rs : List BenchmarkResult) :
    (GenerateSummaryFor p rs).avgTokenThroughput =
      if (summaryLoop 0 {} rs).isStreaming ∧ (summaryLoop 0 {} rs).streamingCount > 0 then
        (summaryLoop 0 {} rs).totalThroughput / ((summaryLoop 0 {} rs).streamingCount : ℚ)
      else 0 := by
  simp only [GenerateSummaryFor]
  split_ifs <;> simp_all

lemma gsf_minThroughput (p : String) (rs : List BenchmarkResult) :
    (GenerateSummaryFor p rs).minTokenThroughput =
      if (summaryLoop 0 {} rs).isStreaming ∧ (summaryLoop 0 {} rs).streamingCount > 0 then
        (summaryLoop 0 {} rs).minThroughput
      else 0 := by
  simp only [GenerateSummaryFor]
  split_ifs <;> simp_all

lemma gsf_maxThroughput (p : String) (rs : List BenchmarkResult) :
    (GenerateSummaryFor p rs).maxTokenThroughput =
      if (summaryLoop 0 {} rs).isStreaming ∧ (summaryLoop 0 {} rs).streamingCount > 0 then
        (summaryLoop 0 {} rs).maxThroughput
      else 0 := by
  simp only [GenerateSummaryFor]
  split_ifs <;> simp_all

lemma countFailed_cons (r : BenchmarkResult) (rest : List BenchmarkResult) :
    countFailed (r :: rest) = (if r.success then 0 else 1) + countFailed rest := by
  by_cases hs : r.success <;> simp [countFailed, List.filter_cons, hs] <;> omega

lemma countSuccess_add_countFailed (rs : List BenchmarkResult) :
    countSuccess rs + countFailed rs = rs.length := by
  induction rs with
  | nil => simp [countSuccess, countFailed]
  | cons r rest ih =>
    rw [countSuccess_cons, countFailed_cons]
    by_cases hs : r.success <;> simp [hs] <;> omega

lemma responseTimes_cons (r : BenchmarkResult) (rest : List BenchmarkResult) :
    responseTimes (r :: rest) = r.responseTime :: responseTimes rest := by
  simp [responseTimes]

/-- Claim C4: for every ResultSet entry, the summary's error rate equals
100 times the failed-request count divided by the total record count, and
when the total count is 0 the error rate is 0. -/
theorem c4_error_rate (p : String) (rs : List BenchmarkResult) :
    (GenerateSummaryFor p rs).errorRate =
      if rs.length = 0 then 0 else 100 * (countFailed rs : ℚ) / (rs.length : ℚ) := by
  rw [gsf_errorRate, summaryLoop_successCount]
  have h := countSuccess_add_countFailed rs
  rcases Nat.eq_zero_or_pos rs.length with h0 | h0
  · simp [h0]
  · rw [if_pos h0, if_neg (by omega)]
    have heq : rs.length - ((SummaryAcc.mk 0 0 0 0 0 false 0 0 0 0 0 0 0).successCount +
        countSuccess rs) = countFailed rs := by
      simp only [SummaryAcc.successCount]
      omega
    rw [heq]
    ring

/-- Claim C8: for every ResultSet entry, the summary's total token count
accumulates only from records flagged successful; each successful record
contributes its streaming-token field when it is a streaming record and its
general usage field otherwise, never both. -/
theorem c8_token_totals (p : String) (rs : List BenchmarkResult) :
    (GenerateSummaryFor p rs).totalTokens = (rs.map tokenContribution).sum := by
  rw [gsf_totalTokens, summaryLoop_totalTokens]
  simp

/-- Claim C7: for every ResultSet entry, the summary's min, average and max
response times are computed over all records, successes and failures alike;
the first record seeds both bounds rather than a default zero, so a record
list whose smallest latency is nonzero never reports a zero minimum. -/
theorem c7_response_time_extremes (p : String) (rs : List BenchmarkResult) (h : rs ≠ []) :
    ((GenerateSummaryFor p rs).minResponseTime ∈ responseTimes rs ∧
      ∀ t ∈ responseTimes rs, (GenerateSummaryFor p rs).minResponseTime ≤ t) ∧
    ((GenerateSummaryFor p rs).maxResponseTime ∈ responseTimes rs ∧
      ∀ t ∈ responseTimes rs, t ≤ (GenerateSummaryFor p rs).maxResponseTime) ∧
    (GenerateSummaryFor p rs).avgResponseTime = (responseTimes rs).sum / rs.length ∧
    ((∀ t ∈ responseTimes rs, 0 < t) → 0 < (GenerateSummaryFor p rs).minResponseTime) := by
  obtain ⟨r, rest, rfl⟩ := List.exists_cons_of_ne_nil h
  rw [gsf_minResponseTime, gsf_maxResponseTime, gsf_avgResponseTime,
    summaryLoop_minTime_zero, summaryLoop_maxTime_zero, summaryLoop_totalResponseTime,
    responseTimes_cons]
  have hminmem : ((responseTimes rest).foldl min r.responseTime = r.responseTime ∨
      (responseTimes rest).foldl min r.responseTime ∈ responseTimes rest) :=
    foldl_min_mem _ _
  have hmaxmem : ((responseTimes rest).foldl max r.responseTime = r.responseTime ∨
      (responseTimes rest).foldl max r.responseTime ∈ responseTimes rest) :=
    foldl_max_mem _ _
  have hminmem' : (responseTimes rest).foldl min r.responseTime ∈
      r.responseTime :: responseTimes rest := by
    rcases hminmem with h1 | h1
    · rw [h1]; exact List.mem_cons_self _ _
    · exact List.mem_cons_of_mem _ h1
  refine ⟨⟨hminmem', ?_⟩, ⟨?_, ?_⟩, ?_, ?_⟩
  · intro t ht
    exact foldl_min_le _ _ _ (List.mem_cons.mp ht)
  · rcases hmaxmem with h1 | h1
    · rw [h1]; exact List.mem_cons_self _ _
    · exact List.mem_cons_of_mem _ h1
  · intro t ht
    exact foldl_max_ge _ _ _ (List.mem_cons.mp ht)
  · rw [if_pos (by simp)]
    simp
  · intro hall
    exact hall _ hminmem'

/-- Claim C10: GenerateSummary marks a summary as streaming only when at
least one successful record is a streaming record; when every streaming
record failed, the summary has IsStreaming false and carries no streaming
statistics. -/
theorem c10_streaming_flag (p : String) (rs : List BenchmarkResult) :
    (GenerateSummaryFor p rs).isStreaming = rs.any (fun r => r.success && r.isStreaming) ∧
    ((∀ r ∈ rs, r.isStreaming = true → r.success = false) →
      (GenerateSummaryFor p rs).isStreaming = false ∧
      (GenerateSummaryFor p rs).avgTimeToFirstToken = 0 ∧
      (GenerateSummaryFor p rs).minTimeToFirstToken = 0 ∧
      (GenerateSummaryFor p rs).maxTimeToFirstToken = 0 ∧
      (GenerateSummaryFor p rs).avgTokenThroughput = 0 ∧
      (GenerateSummaryFor p rs).minTokenThroughput = 0 ∧
      (GenerateSummaryFor p rs).maxTokenThroughput = 0) := by
  have h1 : (GenerateSummaryFor p rs).isStreaming =
      rs.any (fun r => r.success && r.isStreaming) := by
    rw [gsf_isStreaming, summaryLoop_isStreaming]
    simp
  refine ⟨h1, fun hall => ?_⟩
  have hany : rs.any (fun r => r.success && r.isStreaming) = false := by
    rw [List.any_eq_false]
    intro r hr
    intro hb
    rcases Bool.and_eq_true_iff.mp hb with ⟨hsu, hstr⟩
    rw [hall r hr hstr] at hsu
    cases hsu
  have hstream : (summaryLoop 0 {} rs).isStreaming = false := by
    rw [summaryLoop_isStreaming]
    simp [hany]
  refine ⟨by rw [h1, hany], ?_, ?_, ?_, ?_, ?_, ?_⟩ <;>
    simp [gsf_avgTTFT, gsf_minTTFT, gsf_maxTTFT, gsf_avgThroughput, gsf_minThroughput,
      gsf_maxThroughput, hstream]

lemma posTTFTs_ne_nil_exists (rs : List BenchmarkResult) (h : posTTFTs rs ≠ []) :
    ∃ r ∈ rs, r.success = true ∧ r.isStreaming = true ∧ 0 < r.timeToFirstToken := by
  induction rs with
  | nil => simp [posTTFTs] at h
  | cons r rest ih =>
    rw [posTTFTs_cons] at h
    by_cases hq : r.success ∧ r.isStreaming ∧ r.timeToFirstToken > 0
    · exact ⟨r, List.mem_cons_self _ _, hq.1, hq.2.1, hq.2.2⟩
    · rw [if_neg hq] at h
      obtain ⟨x, hx, hxp⟩ := ih h
      exact ⟨x, List.mem_cons_of_mem _ hx, hxp⟩

lemma posThroughputs_ne_nil_of_aligned (rs : List BenchmarkResult)
    (halign : ∀ r ∈ rs, r.success = true → r.isStreaming = true →
      (0 < r.timeToFirstToken ↔ 0 < r.tokenThroughput))
    (h : posTTFTs rs ≠ []) : posThroughputs rs ≠ [] := by
  induction rs with
  | nil => simp [posTTFTs] at h
  | cons r rest ih =>
    rw [posTTFTs_cons] at h
    rw [posThroughputs_cons]
    by_cases hq : r.success ∧ r.isStreaming ∧ r.tokenThroughput > 0
    · rw [if_pos hq]
      simp
    · rw [if_neg hq]
      have hq' : ¬(r.success ∧ r.isStreaming ∧ r.timeToFirstToken > 0) := by
        rintro ⟨h1, h2, h3⟩
        exact hq ⟨h1, h2, (halign r (List.mem_cons_self r rest) h1 h2).mp h3⟩
      rw [if_neg hq'] at h
      exact ih (fun x hx => halign x (List.mem_cons_of_mem r hx)) h

lemma summaryLoop_isStreaming_of_posTTFT (rs : List BenchmarkResult)
    (h : posTTFTs rs ≠ []) : (summaryLoop 0 {} rs).isStreaming = true := by
  rw [summaryLoop_isStreaming]
  obtain ⟨r, hr, h1, h2, _⟩ := posTTFTs_ne_nil_exists rs h
  simp only [Bool.false_or, List.any_eq_true]
  exact ⟨r, hr, by rw [h1, h2]; rfl⟩

/-- Claim C3 (amended): per endpoint, the TTFT statistics are the min,
integer-division average, and max over successful streaming records with
strictly positive TTFT; the throughput sum adds only strictly positive
throughput values but the average divides that sum by the count of
positive-TTFT records (`streamingCount`); when no successful streaming
record has positive TTFT, the summary reports no streaming statistics
(the fields stay zero) even if positive throughput values exist; and the
min/max throughput bounds, whose seeding is keyed to the same TTFT counter,
equal the extremes of the positive-throughput subset when positive TTFT and
positive throughput coincide per record. -/
theorem c3_amended_streaming_stats (p : String) (rs : List BenchmarkResult) :
    (posTTFTs rs = [] →
      (GenerateSummaryFor p rs).avgTimeToFirstToken = 0 ∧
      (GenerateSummaryFor p rs).minTimeToFirstToken = 0 ∧
      (GenerateSummaryFor p rs).maxTimeToFirstToken = 0 ∧
      (GenerateSummaryFor p rs).avgTokenThroughput = 0 ∧
      (GenerateSummaryFor p rs).minTokenThroughput = 0 ∧
      (GenerateSummaryFor p rs).maxTokenThroughput = 0) ∧
    (posTTFTs rs ≠ [] →
      (GenerateSummaryFor p rs).avgTimeToFirstToken =
        (posTTFTs rs).sum / (posTTFTs rs).length ∧
      ((GenerateSummaryFor p rs).minTimeToFirstToken ∈ posTTFTs rs ∧
        ∀ t ∈ posTTFTs rs, (GenerateSummaryFor p rs).minTimeToFirstToken ≤ t) ∧
      ((GenerateSummaryFor p rs).maxTimeToFirstToken ∈ posTTFTs rs ∧
        ∀ t ∈ posTTFTs rs, t ≤ (GenerateSummaryFor p rs).maxTimeToFirstToken) ∧
      (GenerateSummaryFor p rs).avgTokenThroughput =
        (posThroughputs rs).sum / ((posTTFTs rs).length : ℚ)) ∧
    ((∀ r ∈ rs, r.success = true → r.isStreaming = true →
        (0 < r.timeToFirstToken ↔ 0 < r.tokenThroughput)) → posTTFTs rs ≠ [] →
      ((GenerateSummaryFor p rs).minTokenThroughput ∈ posThroughputs rs ∧
        ∀ q ∈ posThroughputs rs, (GenerateSummaryFor p rs).minTokenThroughput ≤ q) ∧
      ((GenerateSummaryFor p rs).maxTokenThroughput ∈ posThroughputs rs ∧
        ∀ q ∈ posThroughputs rs, q ≤ (GenerateSummaryFor p rs).maxTokenThroughput)) := by
  have hsc : (summaryLoop 0 {} rs).streamingCount = (posTTFTs rs).length := by
    rw [summaryLoop_streamingCount]
    simp
  refine ⟨fun hnil => ?_, fun hne => ?_, fun halign hne => ?_⟩
  · have hzero : ¬((summaryLoop 0 {} rs).isStreaming = true ∧
        (summaryLoop 0 {} rs).streamingCount > 0) := by
      rintro ⟨-, hpos⟩
      rw [hsc, hnil] at hpos
      simp at hpos
    refine ⟨?_, ?_, ?_, ?_, ?_, ?_⟩ <;>
      simp only [gsf_avgTTFT, gsf_minTTFT, gsf_maxTTFT, gsf_avgThroughput,
        gsf_minThroughput, gsf_maxThroughput, if_neg hzero]
  · have hstr : (summaryLoop 0 {} rs).isStreaming = true :=
      summaryLoop_isStreaming_of_posTTFT rs hne
    have hpos : (summaryLoop 0 {} rs).streamingCount > 0 := by
      rw [hsc]
      exact List.length_pos.mpr hne
    have hcond : (summaryLoop 0 {} rs).isStreaming = true ∧
        (summaryLoop 0 {} rs).streamingCount > 0 := ⟨hstr, hpos⟩
    obtain ⟨t, ts, hpt⟩ := List.exists_cons_of_ne_nil hne
    have hmin : (summaryLoop 0 {} rs).minTTFT = ts.foldl min t := by
      rw [summaryLoop_minTTFT_seed rs 0 {} rfl, hpt]
    have hmax : (summaryLoop 0 {} rs).maxTTFT = ts.foldl max t := by
      rw [summaryLoop_maxTTFT_seed rs 0 {} rfl, hpt]
    refine ⟨?_, ⟨?_, ?_⟩, ⟨?_, ?_⟩, ?_⟩
    · rw [gsf_avgTTFT, if_pos hcond, summaryLoop_totalTTFT, hsc]
      simp
    · rw [gsf_minTTFT, if_pos hcond, hmin, hpt]
      rcases foldl_min_mem ts t with h1 | h1
      · rw [h1]; exact List.mem_cons_self _ _
      · exact List.mem_cons_of_mem _ h1
    · intro x hx
      rw [gsf_minTTFT, if_pos hcond, hmin]
      rw [hpt] at hx
      exact foldl_min_le _ _ _ (List.mem_cons.mp hx)
    · rw [gsf_maxTTFT, if_pos hcond, hmax, hpt]
      rcases foldl_max_mem ts t with h1 | h1
      · rw [h1]; exact List.mem_cons_self _ _
      · exact List.mem_cons_of_mem _ h1
    · intro x hx
      rw [gsf_maxTTFT, if_pos hcond, hmax]
      rw [hpt] at hx
      exact foldl_max_ge _ _ _ (List.mem_cons.mp hx)
    · rw [gsf_avgThroughput, if_pos hcond, summaryLoop_totalThroughput, hsc]
      simp
  · have hstr : (summaryLoop 0 {} rs).isStreaming = true :=
      summaryLoop_isStreaming_of_posTTFT rs hne
    have hpos : (summaryLoop 0 {} rs).streamingCount > 0 := by
      rw [hsc]
      exact List.length_pos.mpr hne
    have hcond : (summaryLoop 0 {} rs).isStreaming = true ∧
        (summaryLoop 0 {} rs).streamingCount > 0 := ⟨hstr, hpos⟩
    have hqne : posThroughputs rs ≠ [] := posThroughputs_ne_nil_of_aligned rs halign hne
    obtain ⟨q, qs, hpq⟩ := List.exists_cons_of_ne_nil hqne
    have hmin : (summaryLoop 0 {} rs).minThroughput = qs.foldl min q := by
      rw [summaryLoop_minThroughput_seed rs 0 {} rfl halign, hpq]
    have hmax : (summaryLoop 0 {} rs).maxThroughput = qs.foldl max q := by
      rw [summaryLoop_maxThroughput_seed rs 0 {} rfl halign, hpq]
    refine ⟨⟨?_, ?_⟩, ⟨?_, ?_⟩⟩
    · rw [gsf_minThroughput, if_pos hcond, hmin, hpq]
      rcases foldl_min_mem qs q with h1 | h1
      · rw [h1]; exact List.mem_cons_self _ _
      · exact List.mem_cons_of_mem _ h1
    · intro x hx
      rw [gsf_minThroughput, if_pos hcond, hmin]
      rw [hpq] at hx
      exact foldl_min_le _ _ _ (List.mem_cons.mp hx)
    · rw [gsf_maxThroughput, if_pos hcond, hmax, hpq]
      rcases foldl_max_mem qs q with h1 | h1
      · rw [h1]; exact List.mem_cons_self _ _
      · exact List.mem_cons_of_mem _ h1
    · intro x hx
      rw [gsf_maxThroughput, if_pos hcond, hmax]
      rw [hpq] at hx
      exact foldl_max_ge _ _ _ (List.mem_cons.mp hx)

/-- A successful streaming record with zero TTFT but positive throughput
(possible when the clock reads the same instant for `start` and the first
token while the duration measurement still spans a millisecond). -/
def c3recA : BenchmarkResult :=
  { provider := "endpoint", success := true, isStreaming := true,
    timeToFirstToken := 0, tokenThroughput := 5 }

/-- A successful streaming record with positive TTFT and positive throughput. -/
def c3recB : BenchmarkResult :=
  { provider := "endpoint", success := true, isStreaming := true,
    timeToFirstToken := 1000000, tokenThroughput := 2 }

/-- A successful streaming record with positive TTFT and zero throughput
(streaming duration under one millisecond). -/
def c3recC : BenchmarkResult :=
  { provider := "endpoint", success := true, isStreaming := true,
    timeToFirstToken := 1000000, tokenThroughput := 0 }

/-- The record list refuting claim C3's reading of the throughput
statistics. -/
def c3recs : List BenchmarkResult := [c3recA, c3recB, c3recC, c3recC]

theorem c3_counterexample :
    (GenerateSummaryFor "endpoint" c3recs).avgTokenThroughput ≠
      (posThroughputs c3recs).sum / ((posThroughputs c3recs).length : ℚ) ∧
    ∃ q ∈ posThroughputs c3recs, (GenerateSummaryFor "endpoint" c3recs).maxTokenThroughput < q := by
  have hpos : posThroughputs c3recs = [5, 2] := by
    norm_num [posThroughputs, c3recs, c3recA, c3recB, c3recC, List.filter]
  have havg : (GenerateSummaryFor "endpoint" c3recs).avgTokenThroughput = 7 / 3 := by
    norm_num [GenerateSummaryFor, summaryLoop, summaryStep, summarySuccessBlock,
      summaryTTFTBlock, summaryThroughputBlock, c3recs, c3recA, c3recB, c3recC]
  have hmax : (GenerateSummaryFor "endpoint" c3recs).maxTokenThroughput = 2 := by
    norm_num [GenerateSummaryFor, summaryLoop, summaryStep, summarySuccessBlock,
      summaryTTFTBlock, summaryThroughputBlock, c3recs, c3recA, c3recB, c3recC]
  refine ⟨?_, 5, ?_, ?_⟩
  · rw [havg, hpos]
    norm_num
  · rw [hpos]
    simp
  · rw [hmax]
    norm_num

theorem c3_amended_witness :
    (GenerateSummaryFor "endpoint" [c3recB]).avgTokenThroughput = 2 ∧
    (GenerateSummaryFor "endpoint" [c3recB]).minTokenThroughput ∈ posThroughputs [c3recB] := by
  have h := c3_amended_streaming_stats "endpoint" [c3recB]
  have hne : posTTFTs [c3recB] ≠ [] := by
    norm_num [posTTFTs, c3recB, List.filter]
  have halign : ∀ r ∈ [c3recB], r.success = true → r.isStreaming = true →
      (0 < r.timeToFirstToken ↔ 0 < r.tokenThroughput) := by
    intro r hr
    rw [List.mem_singleton] at hr
    subst hr
    norm_num [c3recB]
  have h2 := h.2.1 hne
  have h3 := h.2.2 halign hne
  refine ⟨?_, h3.1.1⟩
  rw [h2.2.2.2]
  norm_num [posThroughputs, posTTFTs, c3recB, List.filter]

/-- A failed request record with nonzero latency. -/
def c7rec : BenchmarkResult := { provider := "endpoint", success := false, responseTime := 250 }

theorem c7_witness : 0 < (GenerateSummaryFor "endpoint" [c7rec]).minResponseTime := by
  have h := c7_response_time_extremes "endpoint" [c7rec] (by simp)
  refine h.2.2.2 ?_
  intro t ht
  simp [responseTimes, c7rec] at ht
  omega

/-- A streaming record that failed. -/
def c10rec : BenchmarkResult :=
  { provider := "endpoint", success := false, isStreaming := true, responseTime := 10 }

theorem c10_witness :
    (GenerateSummaryFor "endpoint" [c10rec]).isStreaming = false ∧
    (GenerateSummaryFor "endpoint" [c10rec]).avgTokenThroughput = 0 := by
  have h := (c10_streaming_flag "endpoint" [c10rec]).2 (by
    intro r hr _
    rw [List.mem_singleton] at hr
    subst hr
    rfl)
  exact ⟨h.1, h.2.2.2.2.1⟩

lemma runner_count_invariant {C R : Nat} {client : Nat → BenchmarkResult} {s : RunnerState}
    (h : RunnerReachable C client R s) :
    s.pending.length + s.inFlight.length + s.results.length = R := by
  induction h with
  | init => simp [initRunnerState]
  | step hr hstep ih =>
    cases hstep with
    | acquire j t hmem hcap =>
      have h1 := List.length_erase_of_mem hmem
      have h2 := List.length_pos.mpr (List.ne_nil_of_mem hmem)
      simp only [List.length_cons] at *
      omega
    | complete j t hmem =>
      have h1 := List.length_erase_of_mem hmem
      have h2 := List.length_pos.mpr (List.ne_nil_of_mem hmem)
      simp only [List.length_append, List.length_cons, List.length_nil] at *
      omega

lemma runner_progress_invariant {C R : Nat} {client : Nat → BenchmarkResult} {s : RunnerState}
    (h : RunnerReachable C client R s) :
    s.progressLog = List.range' 1 s.results.length := by
  induction h with
  | init => simp [initRunnerState]
  | step hr hstep ih =>
    cases hstep with
    | acquire j t hmem hcap => exact ih
    | complete j t hmem =>
      simp only [List.length_append, List.length_cons, List.length_nil, ih]
      rw [List.range'_concat]
      simp [Nat.add_comm]

/-- Claim C6: at every point during a Per-Endpoint Runner batch, the number
of concurrently in-flight requests never exceeds the configured concurrency
limit — the semaphore admits a dispatch only while fewer than
`concurrency` slots are held and each slot is released on completion. -/
theorem c6_concurrency_bound (C R : Nat) (client : Nat → BenchmarkResult)
    (s : RunnerState) (h : RunnerReachable C client R s) : s.inFlight.length ≤ C := by
  induction h with
  | init => simp [initRunnerState]
  | step hr hstep ih =>
    cases hstep with
    | acquire j t hmem hcap =>
      simp only [List.length_cons]
      omega
    | complete j t hmem =>
      have h1 := List.length_erase_of_mem hmem
      simp only [List.length_append, List.length_cons, List.length_nil]
      omega

/-- Claim C5: a Per-Endpoint Runner batch with `requestCount = R` that runs
to completion (nothing pending, nothing in flight) has appended exactly one
result record per dispatched call: the result sequence has length exactly
R, whether the individual calls succeeded or failed. -/
theorem c5_result_count (C R : Nat) (client : Nat → BenchmarkResult)
    (s : RunnerState) (h : RunnerReachable C client R s) (hfin : s.finished) :
    s.results.length = R := by
  have hcount := runner_count_invariant h
  rcases hfin with ⟨hp, hi⟩
  rw [hp, hi] at hcount
  simpa using hcount

/-- Claim C9: the `completedCount` values handed to the progress callback
are monotonically non-decreasing per endpoint (each is produced inside the
per-endpoint critical section right after the append), and when the batch
finishes the final invocation reported `completedCount = requestCount`. -/
theorem c9_progress_monotone (C R : Nat) (client : Nat → BenchmarkResult)
    (s : RunnerState) (h : RunnerReachable C client R s) :
    s.progressLog.Pairwise (· ≤ ·) ∧
    (s.finished → s.progressLog.getLast? = if R = 0 then none else some R) := by
  have hlog := runner_progress_invariant h
  constructor
  · rw [hlog]
    exact (List.pairwise_lt_range' 1 _).imp le_of_lt
  · intro hfin
    have hcount := runner_count_invariant h
    rcases hfin with ⟨hp, hi⟩
    rw [hp, hi] at hcount
    simp only [List.length_nil] at hcount
    have hlen : s.results.length = R := by omega
    rw [hlog, hlen]
    cases R with
    | zero => simp
    | succ n =>
      rw [List.range'_concat]
      rw [List.getLast?_concat]
      simp [Nat.add_comm]

/-- The Endpoint Client used for the concrete runner traces: every request
succeeds in 100 ms. -/
def witClient : Nat → BenchmarkResult :=
  fun _ => { provider := "endpoint", success := true, responseTime := 100000000 }

/-- The state of a one-request batch after that request completed. -/
def witFinal : RunnerState :=
  { pending := [], inFlight := [], results := [witClient 0], progressLog := [1] }

lemma wit_reach_mid : RunnerReachable 1 witClient 1
    { pending := [], inFlight := [0], results := [], progressLog := [] } := by
  have h := RunnerReachable.step
    (RunnerReachable.init : RunnerReachable 1 witClient 1 (initRunnerState 1))
    (RunnerStep.acquire 0 (initRunnerState 1) (by decide) (by decide))
  have hstate : ({ initRunnerState 1 with
      pending := (initRunnerState 1).pending.erase 0,
      inFlight := 0 :: (initRunnerState 1).inFlight } : RunnerState) =
      { pending := [], inFlight := [0], results := [], progressLog := [] } := by
    decide
  rw [hstate] at h
  exact h

lemma wit_reach_final : RunnerReachable 1 witClient 1 witFinal := by
  have h := RunnerReachable.step wit_reach_mid
    (RunnerStep.complete 0
      { pending := [], inFlight := [0], results := [], progressLog := [] } (by decide))
  have hstate : ({ (⟨[], [0], [], []⟩ : RunnerState) with
      inFlight := ([0] : List Nat).erase 0,
      results := ([] : List BenchmarkResult) ++ [witClient 0],
      progressLog := ([] : List Nat) ++ [([] : List BenchmarkResult).length + 1] } :
        RunnerState) = witFinal := by
    simp [witFinal]
  rw [hstate] at h
  exact h

theorem c5_witness : witFinal.results.length = 1 :=
  c5_result_count 1 1 witClient witFinal wit_reach_final ⟨rfl, rfl⟩

theorem c6_witness : witFinal.inFlight.length ≤ 1 :=
  c6_concurrency_bound 1 1 witClient witFinal wit_reach_final

theorem c9_witness :
    witFinal.progressLog.Pairwise (· ≤ ·) ∧ witFinal.progressLog.getLast? = some 1 := by
  have h := c9_progress_monotone 1 1 witClient witFinal wit_reach_final
  refine ⟨h.1, ?_⟩
  have h2 := h.2 ⟨rfl, rfl⟩
  simpa using h2

lemma firstContentTimeNs_cons (c : StreamChunk) (rest : List StreamChunk) :
    firstContentTimeNs (c :: rest) =
      if c.hasChoice && c.content != "" then some c.timeNs else firstContentTimeNs rest := by
  cases hcb : (c.hasChoice && c.content != "") <;>
    simp [firstContentTimeNs, List.find?, hcb]

lemma processStream_spec (startNs : Nat) :
    ∀ (chunks : List StreamChunk) (st : StreamLoopState),
      (processStream startNs st chunks).responseContent =
        st.responseContent ++ assembledResponse chunks ∧
      (processStream startNs st chunks).firstTokenTimeNs =
        (match st.firstTokenTimeNs with
         | some t => some t
         | none => firstContentTimeNs chunks) ∧
      (processStream startNs st chunks).timeToFirstTokenNs =
        (match st.firstTokenTimeNs with
         | some _ => st.timeToFirstTokenNs
         | none =>
           match firstContentTimeNs chunks with
           | some t => t - startNs
           | none => st.timeToFirstTokenNs) := by
  intro chunks
  induction chunks with
  | nil =>
    intro st
    cases hft : st.firstTokenTimeNs <;>
      simp [processStream, assembledResponse, firstContentTimeNs, hft]
  | cons c rest ih =>
    intro st
    by_cases hc : (c.hasChoice && c.content != "") = true
    · cases hft : st.firstTokenTimeNs with
      | none =>
        obtain ⟨h1, h2, h3⟩ := ih ⟨st.responseContent ++ c.content, st.chunkCount + 1,
          some c.timeNs, c.timeNs - startNs⟩
        simp only [processStream, hc, if_true, ite_true, hft, assembledResponse,
          firstContentTimeNs_cons]
        rw [h1, h2, h3]
        simp [String.append_assoc]
      | some t0 =>
        obtain ⟨h1, h2, h3⟩ := ih ⟨st.responseContent ++ c.content, st.chunkCount + 1,
          some t0, st.timeToFirstTokenNs⟩
        simp only [processStream, hc, if_true, ite_true, hft, assembledResponse,
          firstContentTimeNs_cons]
        rw [h1, h2, h3]
        simp [String.append_assoc]
    · obtain ⟨h1, h2, h3⟩ := ih st
      simp only [processStream, hc, Bool.false_eq_true, if_false, ite_false,
        assembledResponse, firstContentTimeNs_cons]
      rw [h1, h2, h3]
      simp

/-- Claim C1: for a streaming request that ends without a stream error, the
token throughput is set to output-token-count divided by the streaming
duration in seconds exactly when the duration from first content fragment
to stream end is at least one millisecond and the counted output tokens of
the assembled response text are positive; the token count is the counter
applied to the assembled text (also stored in `streamingTokens`), not the
number of chunks received; otherwise the throughput field stays zero. -/
theorem c1_streaming_throughput (p : String) (f : String → Nat) (inTok : Nat)
    (sess : StreamSession) (hok : sess.err = none) :
    ((SendChatCompletionStream p (some f) inTok sess).tokenThroughput ≠ 0 →
      ∃ t, firstContentTimeNs sess.chunks = some t ∧
        1000000 ≤ sess.endNs - t ∧
        assembledResponse sess.chunks ≠ "" ∧
        0 < f (assembledResponse sess.chunks) ∧
        (SendChatCompletionStream p (some f) inTok sess).tokenThroughput =
          (f (assembledResponse sess.chunks) : ℚ) /
            (((sess.endNs - t : Nat) : ℚ) / 1000000000)) ∧
    (∀ t, firstContentTimeNs sess.chunks = some t → 1000000 ≤ sess.endNs - t →
      assembledResponse sess.chunks ≠ "" → 0 < f (assembledResponse sess.chunks) →
      (SendChatCompletionStream p (some f) inTok sess).tokenThroughput =
        (f (assembledResponse sess.chunks) : ℚ) /
          (((sess.endNs - t : Nat) : ℚ) / 1000000000) ∧
      (SendChatCompletionStream p (some f) inTok sess).streamingTokens =
        f (assembledResponse sess.chunks)) := by
  obtain ⟨h1, h2, h3⟩ := processStream_spec sess.startNs sess.chunks {}
  have hresp : (processStream sess.startNs {} sess.chunks).responseContent =
      assembledResponse sess.chunks := by
    rw [h1]
    simp
  have hfst : (processStream sess.startNs {} sess.chunks).firstTokenTimeNs =
      firstContentTimeNs sess.chunks := by
    rw [h2]
  simp only [SendChatCompletionStream, hok, hresp, hfst]
  rcases Option.eq_none_or_eq_some (firstContentTimeNs sess.chunks) with hfc | ⟨t0, hfc⟩
  · simp only [hfc]
    constructor
    · intro hthr
      exact absurd rfl hthr
    · intro t ht
      cases ht
  · simp only [hfc]
    by_cases hcond : ((sess.endNs - t0) / 1000000 > 0 ∧
        (if (assembledResponse sess.chunks != "") = true then
          f (assembledResponse sess.chunks) else 0) > 0)
    · rw [if_pos hcond]
      have hne : assembledResponse sess.chunks ≠ "" := by
        rcases hcond with ⟨-, hpos⟩
        intro he
        rw [if_neg (by simp [he])] at hpos
        omega
      have hfa : 0 < f (assembledResponse sess.chunks) := by
        rcases hcond with ⟨-, hpos⟩
        rwa [if_pos (by simpa using hne)] at hpos
      constructor
      · intro hthr
        refine ⟨t0, rfl, by omega, hne, hfa, ?_⟩
        simp [hne]
      · intro t ht hd hne2 hfa2
        rcases Option.some.inj ht with rfl
        constructor
        · simp [hne]
        · simp [hne]
    · rw [if_neg hcond]
      constructor
      · intro hthr
        exact absurd rfl hthr
      · intro t ht hd hne2 hfa2
        rcases Option.some.inj ht with rfl
        exfalso
        apply hcond
        refine ⟨by omega, ?_⟩
        rw [if_pos (by simpa using hne2)]
        exact hfa2

/-- A concrete streaming exchange: one content chunk of two characters at
1 microsecond, stream end two milliseconds later. -/
def c1sess : StreamSession :=
  { startNs := 0,
    chunks := [{ hasChoice := true, content := "ab", timeNs := 1000 }],
    endNs := 2001000,
    err := none }

theorem c1_witness :
    (SendChatCompletionStream "endpoint" (some String.length) 5 c1sess).tokenThroughput = 1000 ∧
    (SendChatCompletionStream "endpoint" (some String.length) 5 c1sess).streamingTokens = 2 := by
  have h := c1_streaming_throughput "endpoint" String.length 5 c1sess rfl
  have hfc : firstContentTimeNs c1sess.chunks = some 1000 := by decide
  have hh := h.2 1000 hfc (by decide) (by decide) (by decide)
  constructor
  · rw [hh.1]
    have hlen : String.length (assembledResponse c1sess.chunks) = 2 := by decide
    rw [hlen]
    norm_num [c1sess]
  · rw [hh.2]
    decide

/-- A model of `time.ParseDuration` defined on the single input "30s". -/
def parse30 : String → Option Nat :=
  fun s => if s = "30s" then some 30000000000 else none

/-- A benchmark configuration with valid providers and timeout but zero
request count and zero concurrency limit. -/
def cfgZero : BenchmarkConfig :=
  { providers := [{ name := "p", baseURL := "https://example.invalid/v1",
                    apiKey := "k", model := "m" }],
    concurrency := 0,
    requests := 0,
    timeout := "30s" }

theorem c2_counterexample :
    NewBenchmarkService parse30 cfgZero =
      .ok { providers := cfgZero.providers, config := cfgZero, timeout := 30000000000 } := by
  rfl

/-- Claim C2 (amended): `NewBenchmarkService` rejects exactly the
configurations whose timeout string does not parse, regardless of the
request count and concurrency values; the zero-count checks live upstream
in the configuration manager's `validate`, which returns a descriptive
error whenever concurrency or requests is not positive. -/
theorem c2_amended_validation :
    (∀ (parseDuration : String → Option Nat) (cfg : BenchmarkConfig),
      (∃ bs, NewBenchmarkService parseDuration cfg = .ok bs) ↔
        (parseDuration cfg.timeout).isSome = true) ∧
    (∀ (parseDuration : String → Option Nat) (cfg : BenchmarkConfig),
      cfg.concurrency ≤ 0 ∨ cfg.requests ≤ 0 →
        ∃ e, configValidate parseDuration cfg = .error e) := by
  constructor
  · intro parse cfg
    unfold NewBenchmarkService
    cases hp : parse cfg.timeout with
    | none => simp
    | some t => simp
  · intro parse cfg hbad
    unfold configValidate
    by_cases hprov : cfg.providers.length = 0
    · rw [if_pos hprov]
      exact ⟨_, rfl⟩
    · rw [if_neg hprov]
      cases hv : validateProviders 0 cfg.providers with
      | error e => exact ⟨e, rfl⟩
      | ok u =>
        cases u
        rcases hbad with hc | hr
        · rw [if_pos hc]
          exact ⟨_, rfl⟩
        · by_cases hc2 : cfg.concurrency ≤ 0
          · rw [if_pos hc2]
            exact ⟨_, rfl⟩
          · rw [if_neg hc2, if_pos hr]
            exact ⟨_, rfl⟩

theorem c2_amended_witness :
    (∃ bs, NewBenchmarkService parse30 cfgZero = .ok bs) ∧
    (∃ e, configValidate parse30 cfgZero = .error e) := by
  constructor
  · exact (c2_amended_validation.1 parse30 cfgZero).mpr (by decide)
  · exact c2_amended_validation.2 parse30 cfgZero (Or.inl (by decide))
